import Mathlib

/-
  Verification development for the PlaneViewer repository.

  The flight-control and environment-simulation core of
  src/PlaneViewer/src/main.js (and the navigation-light routine shared with
  src/script.js and src/unnamed/part_000) is shallowly embedded below.

  Modelling conventions:
  * JavaScript numbers are modelled as elements of a linear ordered field with
    a floor operation; the theorems are stated at the rationals or at the real
    numbers.  Transcendental functions (Math.sin, Math.cos, Math.sqrt,
    Math.atan2, Math.PI) are gathered into a Trig oracle; theorems that depend
    on genuine trigonometric facts are stated at the real instantiation
    realTrig.
  * Every call to Math.random() is modelled by an explicit parameter; where a
    theorem needs it, the parameter carries the hypothesis that it lies in the
    unit interval.
  * Statements such as v.length() < 200 are embedded through the equivalent
    squared comparison (the square root is monotone and both sides are
    nonnegative), avoiding a square root whose value is otherwise unused.
  * Reading an identifier that is never declared (waypointAltitude, main.js
    line 1520/1531) raises a ReferenceError in a JavaScript module; that
    control path is embedded as Except.error carrying the plane state at the
    moment of the throw, together with the mutation-in-place semantics of the
    surrounding forEach loop.
  * Scene-graph, asset-loading, camera and HUD concerns are external
    collaborators per the specification and are not part of the embedding.
-/

namespace PlaneViewer

set_option linter.unusedSectionVars false

/-- A three component vector, the embedding of THREE.Vector3. -/
structure Vec3 (α : Type*) where
  x : α
  y : α
  z : α
deriving DecidableEq, Repr

/-- Oracle bundling the transcendental functions of the JavaScript Math
object.  Definitions take it as a parameter; real-number theorems instantiate
it with realTrig below. -/
structure Trig (α : Type*) where
  sin : α → α
  cos : α → α
  sqrt : α → α
  atan2 : α → α → α
  pi : α

/-- The real instantiation of the oracle: Math.sin is Real.sin and so on;
Math.atan2(y, x) is the complex argument of x + y i. -/
noncomputable def realTrig : Trig ℝ where
  sin := Real.sin
  cos := Real.cos
  sqrt := Real.sqrt
  atan2 := fun y x => Complex.arg ⟨x, y⟩
  pi := Real.pi

variable {α : Type*} [LinearOrderedField α] [FloorRing α]

/-- THREE.MathUtils.clamp(value, min, max) = Math.max(min, Math.min(max, value)). -/
def clamp (value lo hi : α) : α := max lo (min hi value)

/-- THREE.MathUtils.lerp(x, y, t) = x + (y - x) * t. -/
def lerp (x y t : α) : α := x + (y - x) * t

/-- Truncation toward zero, as used by the JavaScript % operator. -/
def jsTrunc (z : α) : ℤ := if z < 0 then -⌊-z⌋ else ⌊z⌋

/-- The JavaScript remainder operator: a % b = a - b * trunc(a / b). -/
def jsMod (a b : α) : α := a - b * (jsTrunc (a / b) : α)

/-- Vector addition. -/
def Vec3.add (u v : Vec3 α) : Vec3 α := ⟨u.x + v.x, u.y + v.y, u.z + v.z⟩

/-- Vector subtraction (THREE.Vector3.subVectors). -/
def Vec3.sub (u v : Vec3 α) : Vec3 α := ⟨u.x - v.x, u.y - v.y, u.z - v.z⟩

/-- Scalar multiple of a vector (THREE.Vector3.multiplyScalar). -/
def Vec3.smul (c : α) (v : Vec3 α) : Vec3 α := ⟨c * v.x, c * v.y, c * v.z⟩

/-- Squared Euclidean length. -/
def Vec3.lenSq (v : Vec3 α) : α := v.x * v.x + v.y * v.y + v.z * v.z

/-- THREE.Vector3.normalize divides by the length unless it is zero
(divideScalar(this.length() || 1)). -/
def Vec3.normalize (T : Trig α) (v : Vec3 α) : Vec3 α :=
  let len := T.sqrt v.lenSq
  if len = 0 then v else Vec3.smul (1 / len) v

/-- The ground reference plane lies at world Y = 0 (main.js line 63). -/
def GROUND_HEIGHT : α := 0

/-- Converts a height above ground to an absolute Y coordinate. -/
def aglToY (agl : α) : α := GROUND_HEIGHT + agl

/-- Converts an absolute Y coordinate to a height above ground. -/
def yToAGL (y : α) : α := y - GROUND_HEIGHT

/-- Reference floor in meters AGL (main.js line 67). -/
def MIN_HEIGHT_AGL : α := 50

/-- Reference ceiling in meters AGL (main.js line 68). -/
def MAX_HEIGHT_AGL : α := 800

/-- Width of the floor danger zone (main.js line 69). -/
def FLOOR_AVOIDANCE_DIST : α := 150

/-- Width of the ceiling danger zone (main.js line 70). -/
def CEILING_AVOIDANCE_DIST : α := 150

/-- Lower edge of the safe altitude band:
MIN_HEIGHT_AGL + FLOOR_AVOIDANCE_DIST + 50 (main.js line 77). -/
def SAFE_ZONE_MIN : α := MIN_HEIGHT_AGL + FLOOR_AVOIDANCE_DIST + 50

/-- Upper edge of the safe altitude band:
MAX_HEIGHT_AGL - CEILING_AVOIDANCE_DIST - 50 (main.js line 78). -/
def SAFE_ZONE_MAX : α := MAX_HEIGHT_AGL - CEILING_AVOIDANCE_DIST - 50

/-- Waypoint distance range (main.js lines 87-88). -/
def WAYPOINT_DISTANCE_MIN : α := 800

/-- Maximum waypoint distance. -/
def WAYPOINT_DISTANCE_MAX : α := 1500

/-- Side length of the despawn box: CHUNK_SIZE * 3 (main.js line 104). -/
def DESPAWN_BOX_SIZE : α := 2000 * 3

/-- Minimum spawn distance from the viewer (main.js line 105). -/
def SPAWN_DISTANCE_MIN : α := 1200

/-- Maximum spawn distance from the viewer (main.js line 106). -/
def SPAWN_DISTANCE_MAX : α := 1800

/-- The animation loop assumes sixty frames per second (main.js line 1311). -/
def dt : α := 1 / 60

/-- Wind changes every sixty seconds (main.js line 45). -/
def WIND_CHANGE_INTERVAL : α := 60

/-- Turbulence redraw period in seconds (main.js line 46). -/
def TURBULENCE_FREQUENCY : α := 3 / 10

/-- Global plane speed multiplier (main.js line 17). -/
def DEBUG_PLANE_SPEED_MULT : α := 3

/-- Compute a spawn altitude inside the safe band as an absolute Y value
(main.js lines 81-84); r models the Math.random() draw. -/
def computeSpawnAltitude (r : α) : α :=
  aglToY (SAFE_ZONE_MIN + r * (SAFE_ZONE_MAX - SAFE_ZONE_MIN))

/-- The random draws consumed by one call of generateWaypoint. -/
structure WpRand (α : Type*) where
  rDist : α
  rAngle : α
  rAlt : α
deriving DecidableEq, Repr

/-- Generate a waypoint far from the plane (main.js lines 91-101): random
distance in the waypoint range, random horizontal bearing, altitude drawn
uniformly from the safe band. -/
def generateWaypoint (T : Trig α) (r : WpRand α) (planePos : Vec3 α) : Vec3 α :=
  let distance := WAYPOINT_DISTANCE_MIN + r.rDist * (WAYPOINT_DISTANCE_MAX - WAYPOINT_DISTANCE_MIN)
  let angle := r.rAngle * (T.pi * 2)
  let altitude := SAFE_ZONE_MIN + r.rAlt * (SAFE_ZONE_MAX - SAFE_ZONE_MIN)
  ⟨planePos.x + T.cos angle * distance, aglToY altitude, planePos.z + T.sin angle * distance⟩

/-- Failure modes of the tick loop body.  referenceError models reading the
undeclared identifier waypointAltitude (main.js lines 1520 and 1531);
typeError models the Bezier step reading a null control point. -/
inductive JsError where
  | referenceError
  | typeError
deriving DecidableEq, Repr

/-- Global wind state (main.js lines 42-44). -/
structure WindState (α : Type*) where
  direction : α
  strength : α
  changeTimer : α
deriving DecidableEq, Repr

/-- updateWind (main.js lines 1292-1306): advance the change timer; once it
exceeds WIND_CHANGE_INTERVAL, shift the direction by (r1 - 0.5) * pi * 0.5 and
redraw the strength as 0.5 + r2 * 1.5. -/
def updateWind (pi r1 r2 dtv : α) (w : WindState α) : WindState α :=
  let timer := w.changeTimer + dtv
  if WIND_CHANGE_INTERVAL < timer then
    { direction := w.direction + (r1 - 1 / 2) * pi * (1 / 2)
      strength := 1 / 2 + r2 * (3 / 2)
      changeTimer := 0 }
  else
    { w with changeTimer := timer }

/-- One iteration bound of the first wrapping loop
(while (headingDiff > Math.PI) headingDiff -= Math.PI * 2, main.js 1567). -/
def wrapDown (pi : α) : ℕ → α → α
  | 0, x => x
  | n + 1, x => if pi < x then wrapDown pi n (x - 2 * pi) else x

/-- One iteration bound of the second wrapping loop
(while (headingDiff < -Math.PI) headingDiff += Math.PI * 2, main.js 1568). -/
def wrapUp (pi : α) : ℕ → α → α
  | 0, x => x
  | n + 1, x => if x < -pi then wrapUp pi n (x + 2 * pi) else x

/-- The heading-difference wrap of main.js lines 1566-1568, with an explicit
iteration bound standing in for the unbounded while loops. -/
def wrapToPi (pi : α) (fuel : ℕ) (x : α) : α := wrapUp pi fuel (wrapDown pi fuel x)

/-- The numeric outputs of updateDayNightCycle (main.js lines 1197-1289).
Color interpolation feeds only the renderer and is omitted. -/
structure DayNightState (α : Type*) where
  sunAngle : α
  sunY : α
  sunZ : α
  moonAngle : α
  moonY : α
  moonZ : α
  sunVisible : Prop
  moonVisible : Prop
  dayPhase : α
  nightPhase : α
  sunLightIntensity : α
  moonLightIntensity : α
  starOpacity : α

/-- updateDayNightCycle (main.js lines 1197-1289): the sun angle is
(timeOfDay - 0.5) * pi * 2 at radius SKY_RADIUS * 0.85 = 1700, the moon is
antipodal, the sun is visible when timeOfDay lies in (0.15, 0.85) and sunY is
positive, the moon when timeOfDay lies outside [0.15, 0.85] and moonY is
positive, and the light phases come from sin((timeOfDay - 0.25) * pi * 2). -/
def updateDayNightCycle (T : Trig α) (timeOfDay : α) : DayNightState α :=
  let celestialDistance : α := 2000 * (85 / 100)
  let sunAngle := (timeOfDay - 1 / 2) * T.pi * 2
  let sunY := T.sin sunAngle * celestialDistance
  let sunZ := T.cos sunAngle * celestialDistance
  let moonAngle := sunAngle + T.pi
  let moonY := T.sin moonAngle * celestialDistance
  let moonZ := T.cos moonAngle * celestialDistance
  let dayPhase := max 0 (T.sin ((timeOfDay - 1 / 4) * T.pi * 2))
  let nightPhase := 1 - dayPhase
  { sunAngle := sunAngle
    sunY := sunY
    sunZ := sunZ
    moonAngle := moonAngle
    moonY := moonY
    moonZ := moonZ
    sunVisible := (3 / 20 < timeOfDay ∧ timeOfDay < 17 / 20) ∧ 0 < sunY
    moonVisible := (timeOfDay < 3 / 20 ∨ 17 / 20 < timeOfDay) ∧ 0 < moonY
    dayPhase := dayPhase
    nightPhase := nightPhase
    sunLightIntensity := dayPhase * (3 / 2)
    moonLightIntensity := nightPhase * (3 / 10)
    starOpacity := nightPhase * (9 / 10) }

/-- The per-plane navigation light intensities set by one call of
flashNavigationLights. -/
structure NavLights (α : Type*) where
  red : α
  green : α
  white : α
deriving DecidableEq, Repr

/-- flashNavigationLights (main.js lines 1101-1159), non-debug constants:
the red and green wing lights alternate on the sign of sin(time * speed * 20)
beyond the 0.8 threshold, and the three white strobes follow a double-blink
pattern over a 2.36 second period. -/
def flashNavigationLights (T : Trig α) (planeSpeed time lightMultiplier : α) : NavLights α :=
  let speed := planeSpeed * 20
  let s := T.sin (time * speed)
  let redGreenIntensity := (12 / 10) * lightMultiplier
  let whiteIntensity := (32 / 10) * lightMultiplier
  let rg : α × α :=
    if 8 / 10 < s then (redGreenIntensity, 0)
    else if s < -(8 / 10) then (0, redGreenIntensity)
    else (0, 0)
  let whiteOn : α := 8 / 100
  let whiteGap : α := 2 / 10
  let whitePause : α := 2
  let whitePeriod := whiteOn * 2 + whiteGap + whitePause
  let phase := jsMod time whitePeriod
  let isWhiteOn := phase < whiteOn ∨ (whiteOn + whiteGap ≤ phase ∧ phase < whiteOn + whiteGap + whiteOn)
  { red := rg.1, green := rg.2, white := if isWhiteOn then whiteIntensity else 0 }

/-- The flashNavigationLights variant of src/script.js lines 107-128 and
src/unnamed/part_000 lines 193-214: same alternating red/green branches with
unit intensity, plus a single slower white strobe. -/
def flashNavigationLightsSimple (T : Trig α) (planeSpeed time : α) : NavLights α :=
  let speed := planeSpeed * 20
  let s := T.sin (time * speed)
  let rg : α × α :=
    if 8 / 10 < s then (1, 0)
    else if s < -(8 / 10) then (0, 1)
    else (0, 0)
  { red := rg.1
    green := rg.2
    white := if 19 / 20 < T.sin (time * speed * (1 / 2)) then 5 else 0 }

/-- World tile size in units (main.js line 60). -/
def CHUNK_SIZE : ℚ := 2000

/-- The terrain streamer state: the last chunk center, if any, and the set of
loaded chunk keys (main.js lines 216-268).  Chunk coordinates are modelled as
integers and viewer coordinates as rationals. -/
structure TerrainChunkManager where
  centerCx : Option ℤ
  centerCz : Option ℤ
  active : Finset (ℤ × ℤ)
deriving DecidableEq

/-- The desired chunk square: all keys within CHUNK_RADIUS = 1 of the center
(the dz/dx loops of main.js lines 248-256). -/
def chunkNeeded (cx cz : ℤ) : Finset (ℤ × ℤ) :=
  Finset.Icc (cx - 1) (cx + 1) ×ˢ Finset.Icc (cz - 1) (cz + 1)

/-- TerrainChunkManager.update (main.js lines 240-267): if the viewpoint is in
the stored chunk cell and at least one chunk is loaded, do nothing; otherwise
load exactly the desired square and unload everything else.  The result also
reports the sets of created and destroyed chunk keys. -/
def TerrainChunkManager.update (m : TerrainChunkManager) (pos : ℚ × ℚ) :
    TerrainChunkManager × Finset (ℤ × ℤ) × Finset (ℤ × ℤ) :=
  let cx := ⌊pos.1 / CHUNK_SIZE⌋
  let cz := ⌊pos.2 / CHUNK_SIZE⌋
  if m.centerCx = some cx ∧ m.centerCz = some cz ∧ 0 < m.active.card then
    (m, ∅, ∅)
  else
    let needed := chunkNeeded cx cz
    (⟨some cx, some cz, needed⟩, needed \ m.active, m.active \ needed)

/-- Per-plane simulation state.  Field names follow the source object (main.js
lines 954-993); pos is mesh.position, scaleFactor the uniform size factor set
by updatePlaneProperties, and redIntensity/greenIntensity/whiteIntensity the
navigation-light outputs.  smoothInit mirrors the truthiness of
plane.smoothWaypoint, which gates the lazy initialisation at line 1427. -/
structure Plane (α : Type*) where
  pos : Vec3 α
  speed : α
  baseSpeed : α
  climbPerformance : α
  maxClimbRate : α
  maxDescentRate : α
  waypoint : Vec3 α
  waypointTimer : α
  waypointInterval : α
  scaleFactor : α
  redIntensity : α
  greenIntensity : α
  whiteIntensity : α
  lightTimer : α
  vSpeed : α
  desiredClimbSmooth : α
  heading : α
  pitch : α
  roll : α
  turnRate : α
  targetHeading : α
  headingChangeTimer : α
  headingChangeInterval : α
  turbulenceTimer : α
  turbulenceOffset : Vec3 α
  smoothInit : Bool
  smoothWaypoint : Vec3 α
  targetWaypoint : Vec3 α
  waypointBlendFactor : α
  waypointControlPoint : Option (Vec3 α)
  yawVelocity : α
  rollVelocity : α
  pitchVelocity : α
deriving DecidableEq, Repr

/-- The random draws consumed by one call of respawnPlane. -/
structure RespawnRand (α : Type*) where
  rDist : α
  rAngle : α
  rAlt : α
  rRotY : α
  rVSpeed : α
  rLightTimer : α
  rTurnRate : α
  rInterval : α
  wp : WpRand α
deriving DecidableEq, Repr

/-- The random draws a single plane may consume during one tick of the
animation loop; each field models the Math.random() calls of one source site. -/
structure TickRand (α : Type*) where
  rNewInterval : α
  wpTimer : WpRand α
  wpRegen : WpRand α
  rCurveDir : α
  rCurveIntensity : α
  rTurbX : α
  rTurbY : α
  rTurbZ : α
  respawn : RespawnRand α
deriving DecidableEq, Repr

/-- updatePlaneProperties (main.js lines 1075-1098): speed and the uniform
scale factor are affine in the height ratio; plane.baseSpeed || 1 guards a
falsy base speed. -/
def updatePlaneProperties (p : Plane α) : Plane α :=
  let agl := yToAGL p.pos.y
  let heightFrac := (agl - MIN_HEIGHT_AGL) / (MAX_HEIGHT_AGL - MIN_HEIGHT_AGL)
  let baseSpeedFactor := if p.baseSpeed = 0 then 1 else p.baseSpeed
  { p with
    speed := (5 / 100 + heightFrac * (15 / 100)) * baseSpeedFactor * DEBUG_PLANE_SPEED_MULT
    scaleFactor := 1 + heightFrac * (15 / 10) }

/-- respawnPlane (main.js lines 1025-1072): place the plane at a random
bearing and distance from the viewer, at a safe-band altitude, with a level or
climbing vertical speed, a fresh waypoint and a new light phase; heading,
pitch, roll, turn rate and the heading-change timers are reset.  The momentum
fields yawVelocity, rollVelocity and pitchVelocity are not touched by the
source. -/
def respawnPlane (T : Trig α) (r : RespawnRand α) (center : Vec3 α) (p : Plane α) : Plane α :=
  let spawnDistance := SPAWN_DISTANCE_MIN + r.rDist * (SPAWN_DISTANCE_MAX - SPAWN_DISTANCE_MIN)
  let spawnAngle := r.rAngle * (T.pi * 2)
  let pos : Vec3 α :=
    ⟨center.x + T.cos spawnAngle * spawnDistance,
     computeSpawnAltitude r.rAlt,
     center.z + T.sin spawnAngle * spawnDistance⟩
  let rotY := r.rRotY * (T.pi * 2)
  let maxClimbRate := if p.maxClimbRate = 0 then 12 / 10 else p.maxClimbRate
  let randomVSpeed := clamp (r.rVSpeed * maxClimbRate * (1 / 2)) 0 maxClimbRate
  updatePlaneProperties
    { p with
      pos := pos
      vSpeed := randomVSpeed
      desiredClimbSmooth := randomVSpeed
      lightTimer := r.rLightTimer * 50
      waypoint := generateWaypoint T r.wp pos
      heading := rotY
      pitch := 0
      roll := 0
      turnRate := (r.rTurnRate - 1 / 2) * (4 / 10)
      headingChangeTimer := 0
      headingChangeInterval := 45 + r.rInterval * 55 }

/-- Waypoint timer update (main.js lines 1415-1423): advance the timer; past
the interval, reset it, pick a new interval in [30, 70) and regenerate the
waypoint.  plane.waypointInterval || 30 guards a falsy interval. -/
def waypointTimerStep (T : Trig α) (rnd : TickRand α) (p : Plane α) : Plane α :=
  let timer := p.waypointTimer + dt
  let interval := if p.waypointInterval = 0 then 30 else p.waypointInterval
  if interval < timer then
    { p with
      waypointTimer := 0
      waypointInterval := 30 + rnd.rNewInterval * 40
      waypoint := generateWaypoint T rnd.wpTimer p.pos }
  else
    { p with waypointTimer := timer }

/-- Lazy initialisation of the curved-path state (main.js lines 1427-1432). -/
def navInitStep (p : Plane α) : Plane α :=
  if p.smoothInit then p
  else
    { p with
      smoothWaypoint := p.waypoint
      targetWaypoint := p.waypoint
      waypointBlendFactor := 1
      waypointControlPoint := none
      smoothInit := true }

/-- Waypoint regeneration on near-arrival (main.js lines 1435-1472): when the
distance to the smooth waypoint falls below 200 (embedded as the squared
comparison) and the blend is at least 0.99, pick a new target, roll the old
smooth waypoint into position zero of the curve, build a perpendicular control
point clamped into the safe band, and reset the blend factor to exactly 0. -/
def navRegenStep (T : Trig α) (rnd : TickRand α) (p : Plane α) : Plane α :=
  let toWaypoint := Vec3.sub p.smoothWaypoint p.pos
  if toWaypoint.lenSq < 200 ^ 2 ∧ 99 / 100 ≤ p.waypointBlendFactor then
    let newWaypoint := generateWaypoint T rnd.wpRegen p.pos
    let directPath := Vec3.sub newWaypoint p.smoothWaypoint
    let pathDistance := T.sqrt directPath.lenSq
    let perpendicular := Vec3.normalize T ⟨-directPath.z, 0, directPath.x⟩
    let curveDirection : α := if rnd.rCurveDir < 1 / 2 then 1 else -1
    let curveIntensity := 3 / 10 + rnd.rCurveIntensity * (4 / 10)
    let midpoint := Vec3.add p.smoothWaypoint (Vec3.smul (1 / 2) directPath)
    let cp := Vec3.add midpoint (Vec3.smul (pathDistance * curveIntensity * curveDirection) perpendicular)
    let controlAltitude := yToAGL cp.y
    let cp :=
      if controlAltitude < SAFE_ZONE_MIN then { cp with y := aglToY (SAFE_ZONE_MIN + 50) }
      else if SAFE_ZONE_MAX < controlAltitude then { cp with y := aglToY (SAFE_ZONE_MAX - 50) }
      else cp
    { p with
      waypoint := p.smoothWaypoint
      targetWaypoint := newWaypoint
      waypointBlendFactor := 0
      waypointControlPoint := some cp }
  else p

/-- Ease-out cubic shaping (main.js line 1482). -/
def easeOutCubic (t : α) : α := 1 - (1 - t) ^ 3

/-- The quadratic Bezier combination of main.js lines 1487-1491:
old * (1-t)^2 + control * 2(1-t)t + target * t^2. -/
def bezierPoint (wp cp tgt : Vec3 α) (eased : α) : Vec3 α :=
  let oneMinusT := 1 - eased
  ⟨wp.x * (oneMinusT * oneMinusT) + cp.x * (2 * oneMinusT * eased) + tgt.x * (eased * eased),
   wp.y * (oneMinusT * oneMinusT) + cp.y * (2 * oneMinusT * eased) + tgt.y * (eased * eased),
   wp.z * (oneMinusT * oneMinusT) + cp.z * (2 * oneMinusT * eased) + tgt.z * (eased * eased)⟩

/-- The blend advance (main.js lines 1475-1494): while the blend factor is
below 1, raise it by 0.003 (capped at 1) and move the smooth waypoint along
the Bezier curve.  A null control point would make the source dereference
null inside addScaledVector, so that path is an error carrying the state after
the factor increment. -/
def blendStep (p : Plane α) : Except (Plane α × JsError) (Plane α) :=
  if p.waypointBlendFactor < 1 then
    let t := min 1 (p.waypointBlendFactor + 3 / 1000)
    match p.waypointControlPoint with
    | none => .error ({ p with waypointBlendFactor := t }, .typeError)
    | some cp =>
      let eased := easeOutCubic t
      .ok { p with
            waypointBlendFactor := t
            smoothWaypoint := bezierPoint p.waypoint cp p.targetWaypoint eased }
  else .ok p

/-- Safe-band correction of the smooth waypoint altitude (main.js lines
1501-1507). -/
def smoothClampStep (p : Plane α) : Plane α :=
  let smoothWaypointAltitude := yToAGL p.smoothWaypoint.y
  if smoothWaypointAltitude < SAFE_ZONE_MIN then
    { p with smoothWaypoint := { p.smoothWaypoint with y := aglToY (SAFE_ZONE_MIN + 20) } }
  else if SAFE_ZONE_MAX < smoothWaypointAltitude then
    { p with smoothWaypoint := { p.smoothWaypoint with y := aglToY (SAFE_ZONE_MAX - 20) } }
  else p

/-- Vertical decision and heading target (main.js lines 1497-1546): a
proportional climb toward the smooth waypoint, danger-zone avoidance pushes
near floor and ceiling, the heading target toward the smooth waypoint, the
performance clamp and the 0.2 lerp onto vSpeed.  In the deep danger zones
(floorDist < 75 or ceilingDist < 75) the source evaluates the undeclared
identifier waypointAltitude (lines 1520 and 1531) and therefore throws a
ReferenceError before any of the later statements run; altitude is the AGL
snapshot taken at line 1404. -/
def verticalAndHeadingStep (T : Trig α) (altitude : α) (p : Plane α) :
    Except (Plane α × JsError) (Plane α) :=
  let maxClimbRate := if p.maxClimbRate = 0 then 12 / 10 else p.maxClimbRate
  let maxDescentRate := if p.maxDescentRate = 0 then 8 / 10 else p.maxDescentRate
  let climbPerformance := if p.climbPerformance = 0 then 1 else p.climbPerformance
  let floorDist := altitude - MIN_HEIGHT_AGL
  let ceilingDist := MAX_HEIGHT_AGL - altitude
  let altitudeError := yToAGL p.smoothWaypoint.y - altitude
  let desiredClimb := altitudeError * (6 / 100) * climbPerformance
  let finish : α → Plane α := fun desired =>
    let targetHeading := T.atan2 (p.smoothWaypoint.x - p.pos.x) (p.smoothWaypoint.z - p.pos.z)
    let clamped := clamp desired (-maxDescentRate) maxClimbRate
    { p with
      targetHeading := targetHeading
      vSpeed := lerp p.vSpeed clamped (2 / 10) }
  if floorDist < FLOOR_AVOIDANCE_DIST then
    let desiredClimb := desiredClimb + maxClimbRate * (1 - floorDist / FLOOR_AVOIDANCE_DIST) * (6 / 10)
    if floorDist < FLOOR_AVOIDANCE_DIST * (1 / 2) then .error (p, .referenceError)
    else .ok (finish desiredClimb)
  else if ceilingDist < CEILING_AVOIDANCE_DIST then
    let desiredClimb := desiredClimb - maxDescentRate * (1 - ceilingDist / CEILING_AVOIDANCE_DIST) * (6 / 10)
    if ceilingDist < CEILING_AVOIDANCE_DIST * (1 / 2) then .error (p, .referenceError)
    else .ok (finish desiredClimb)
  else .ok (finish desiredClimb)

/-- Vertical integration and property refresh (main.js lines 1555-1559). -/
def integrateStep (p : Plane α) : Plane α :=
  updatePlaneProperties { p with pos := { p.pos with y := p.pos.y + p.vSpeed * dt } }

/-- Orientation smoothing (main.js lines 1564-1626): the wrapped heading error
feeds a damped, rate-clamped yaw integrator; roll banks toward the clamped
-yawVelocity * 40 with its own damped integrator and a final clamp of
plus/minus pi/3.5; pitch tracks the clamped -vSpeed * 0.25 likewise with a
final clamp of plus/minus pi/9. -/
def orientationStep (T : Trig α) (fuel : ℕ) (p : Plane α) : Plane α :=
  let headingDiff := wrapToPi T.pi fuel (p.targetHeading - p.heading)
  let yawVelocity := clamp ((p.yawVelocity + headingDiff * (2 / 100)) * (97 / 100)) (-(6 / 1000)) (6 / 1000)
  let heading := p.heading + yawVelocity
  let targetRoll := clamp (-yawVelocity * 40) (-(T.pi / 4)) (T.pi / 4)
  let rollVelocity := clamp ((p.rollVelocity + (targetRoll - p.roll) * (15 / 1000)) * (93 / 100)) (-(8 / 1000)) (8 / 1000)
  let roll := max (-(T.pi / (35 / 10))) (min (T.pi / (35 / 10)) (p.roll + rollVelocity))
  let targetPitch := clamp (-p.vSpeed * (25 / 100)) (-(T.pi / 12)) (T.pi / 12)
  let pitchVelocity := clamp ((p.pitchVelocity + (targetPitch - p.pitch) * (8 / 1000)) * (95 / 100)) (-(5 / 1000)) (5 / 1000)
  let pitch := max (-(T.pi / 9)) (min (T.pi / 9) (p.pitch + pitchVelocity))
  { p with
    yawVelocity := yawVelocity
    heading := heading
    rollVelocity := rollVelocity
    roll := roll
    pitchVelocity := pitchVelocity
    pitch := pitch }

/-- Forward translation (main.js lines 1629-1635): rotation order YXZ is
applied to the mesh and translateZ moves it by speed along the object-local Z
axis, whose world direction is (sin h cos p, -sin p, cos h cos p). -/
def translateStep (T : Trig α) (p : Plane α) : Plane α :=
  { p with
    pos := Vec3.add p.pos
      ⟨T.sin p.heading * T.cos p.pitch * p.speed,
       -T.sin p.pitch * p.speed,
       T.cos p.heading * T.cos p.pitch * p.speed⟩ }

/-- Constant wind drift (main.js lines 1639-1642). -/
def windDriftStep (T : Trig α) (wind : WindState α) (p : Plane α) : Plane α :=
  { p with
    pos := Vec3.add p.pos
      ⟨T.cos wind.direction * wind.strength * dt * (3 / 10), 0,
       T.sin wind.direction * wind.strength * dt * (3 / 10)⟩ }

/-- Turbulence (main.js lines 1645-1661): past the redraw period the offset is
redrawn from the wind strength, then the current offset displaces the position
scaled by dt * 3. -/
def turbulenceStep (rnd : TickRand α) (wind : WindState α) (p : Plane α) : Plane α :=
  let timer := p.turbulenceTimer + dt
  let next : α × Vec3 α :=
    if TURBULENCE_FREQUENCY < timer then
      let turbStrength := wind.strength * (4 / 10)
      (0, ⟨(rnd.rTurbX - 1 / 2) * turbStrength,
           (rnd.rTurbY - 1 / 2) * turbStrength * (6 / 10),
           (rnd.rTurbZ - 1 / 2) * turbStrength⟩)
    else (timer, p.turbulenceOffset)
  { p with
    turbulenceTimer := next.1
    turbulenceOffset := next.2
    pos := Vec3.add p.pos (Vec3.smul (dt * 3) next.2) }

/-- Layered sinusoidal wobble on roll, pitch and heading (main.js lines
1664-1675), phase-shifted per plane through lightTimer. -/
def wobbleStep (T : Trig α) (time : α) (wind : WindState α) (p : Plane α) : Plane α :=
  let turbulenceRoll :=
    T.sin (time * (1 / 2) + p.lightTimer) * wind.strength * (4 / 100) +
    T.sin (time * (12 / 10) + p.lightTimer * (7 / 10)) * wind.strength * (25 / 1000)
  let turbulencePitch :=
    T.sin (time * (8 / 10) + p.lightTimer * (13 / 10)) * wind.strength * (2 / 100) +
    T.sin (time * (15 / 10) + p.lightTimer * (1 / 2)) * wind.strength * (15 / 1000)
  let turbulenceYaw := T.sin (time * (6 / 10) + p.lightTimer * (9 / 10)) * wind.strength * (3 / 100)
  { p with
    roll := p.roll + turbulenceRoll * dt
    pitch := p.pitch + turbulencePitch * dt
    heading := p.heading + turbulenceYaw * dt }

/-- Despawn check and light flashing (main.js lines 1678-1691): a plane
outside the despawn box around the camera is respawned and the body returns;
otherwise the light timer advances and the navigation lights flash with the
day/night multiplier 1 - dayPhase * 0.8. -/
def respawnOrLightsStep (T : Trig α) (rnd : TickRand α) (cam : Vec3 α) (timeOfDay : α)
    (p : Plane α) : Plane α :=
  let despawnHalf := DESPAWN_BOX_SIZE / 2
  if despawnHalf < |p.pos.x - cam.x| ∨ despawnHalf < |p.pos.z - cam.z| then
    respawnPlane T rnd.respawn cam p
  else
    let lightTimer := p.lightTimer + dt
    let dayPhase := max 0 (T.sin ((timeOfDay - 1 / 4) * T.pi * 2))
    let lightMultiplier := 1 - dayPhase * (8 / 10)
    let lights := flashNavigationLights T p.speed lightTimer lightMultiplier
    { p with
      lightTimer := lightTimer
      redIntensity := lights.red
      greenIntensity := lights.green
      whiteIntensity := lights.white }

/-- One pass of the per-plane body of the animation loop (main.js lines
1398-1692).  Errors carry the plane state already mutated before the throw,
matching the in-place updates of the source.  The frustum-culling visibility
flag is rendering-only and omitted. -/
def planeTick (T : Trig α) (fuel : ℕ) (rnd : TickRand α) (cam : Vec3 α)
    (timeOfDay time : α) (wind : WindState α) (p0 : Plane α) :
    Except (Plane α × JsError) (Plane α) :=
  let altitude := yToAGL p0.pos.y
  let p1 := navInitStep (waypointTimerStep T rnd p0)
  let p2 := navRegenStep T rnd p1
  match blendStep p2 with
  | .error e => .error e
  | .ok p3 =>
    let p4 := smoothClampStep p3
    match verticalAndHeadingStep T altitude p4 with
    | .error e => .error e
    | .ok p5 =>
      let p6 := translateStep T (orientationStep T fuel (integrateStep p5))
      let p7 := wobbleStep T time wind (turbulenceStep rnd wind (windDriftStep T wind p6))
      .ok (respawnOrLightsStep T rnd cam timeOfDay p7)

/-- The planes.forEach of main.js line 1398: planes are updated sequentially;
an exception thrown while updating one plane propagates out of forEach, so the
planes after it keep their previous state for that frame.  The random source
is indexed by position in the list. -/
def tickLoop (T : Trig α) (fuel : ℕ) (rands : ℕ → TickRand α) (cam : Vec3 α)
    (timeOfDay time : α) (wind : WindState α) :
    ℕ → List (Plane α) → List (Plane α) × Option JsError
  | _, [] => ([], none)
  | i, p :: ps =>
    match planeTick T fuel (rands i) cam timeOfDay time wind p with
    | .ok q =>
      let rest := tickLoop T fuel rands cam timeOfDay time wind (i + 1) ps
      (q :: rest.1, rest.2)
    | .error (pe, e) => (pe :: ps, some e)

/-- The simulation state threaded between frames: the day/night clock, the
wind and the plane population. -/
structure SimState (α : Type*) where
  timeOfDay : α
  wind : WindState α
  planes : List (Plane α)

/-- One frame of the animate callback (main.js lines 1309-1692), nightModeOnly
off: requestAnimationFrame is issued first, so the next frame runs whether or
not this one throws; the clock advances modulo one, the wind updates, and the
plane loop runs.  An escaped exception is reported alongside the new state and
is swallowed by the browser event loop.  Camera movement, terrain streaming
and rendering are external to the plane core and omitted here. -/
def animateFrame (T : Trig α) (fuel : ℕ) (rWind1 rWind2 : α) (rands : ℕ → TickRand α)
    (cam : Vec3 α) (time : α) (s : SimState α) : SimState α × Option JsError :=
  let timeOfDay := jsMod (s.timeOfDay + (1 / 1000) * dt) 1
  let wind := updateWind T.pi rWind1 rWind2 dt s.wind
  let r := tickLoop T fuel rands cam timeOfDay time wind 0 s.planes
  ({ timeOfDay := timeOfDay, wind := wind, planes := r.1 }, r.2)

/-- Zero draws, standing in for an arbitrary random source. -/
def zeroWpRand : WpRand α := ⟨0, 0, 0⟩

/-- Zero respawn draws. -/
def zeroRespawnRand : RespawnRand α := ⟨0, 0, 0, 0, 0, 0, 0, 0, zeroWpRand⟩

/-- Zero tick draws. -/
def zeroTickRand : TickRand α := ⟨0, zeroWpRand, zeroWpRand, 0, 0, 0, 0, 0, zeroRespawnRand⟩

/-- A plane in a benign cruise state: mid band at 400 m AGL, level, with the
smooth waypoint far ahead and the blend completed. -/
def basePlane : Plane α where
  pos := ⟨0, 400, 0⟩
  speed := 0
  baseSpeed := 1
  climbPerformance := 1
  maxClimbRate := 1
  maxDescentRate := 1 / 2
  waypoint := ⟨0, 300, 9000⟩
  waypointTimer := 0
  waypointInterval := 30
  scaleFactor := 1
  redIntensity := 0
  greenIntensity := 0
  whiteIntensity := 0
  lightTimer := 0
  vSpeed := 0
  desiredClimbSmooth := 0
  heading := 0
  pitch := 0
  roll := 0
  turnRate := 0
  targetHeading := 0
  headingChangeTimer := 0
  headingChangeInterval := 45
  turbulenceTimer := 0
  turbulenceOffset := ⟨0, 0, 0⟩
  smoothInit := true
  smoothWaypoint := ⟨0, 400, 9000⟩
  targetWaypoint := ⟨0, 400, 9000⟩
  waypointBlendFactor := 1
  waypointControlPoint := none
  yawVelocity := 0
  rollVelocity := 0
  pitchVelocity := 0

/-- A plane deep inside the floor danger zone (100 m AGL, floor distance 50,
below half of FLOOR_AVOIDANCE_DIST) whose waypoint altitude 300 lies in the
lower half of the safe band. -/
def badPlane : Plane α := { basePlane with pos := ⟨0, 100, 0⟩ }

/-- A plane deep inside the ceiling danger zone (770 m AGL, ceiling distance
30) whose waypoint altitude 500 lies in the upper half of the safe band. -/
def ceilPlane : Plane α := { basePlane with pos := ⟨0, 770, 0⟩, waypoint := ⟨0, 500, 9000⟩ }

/-- A plane inside the altitude band at 130 m AGL but carrying an extreme
stored vertical speed, far outside the performance envelope. -/
def divePlane : Plane α :=
  { basePlane with
    pos := ⟨0, 130, 0⟩
    vSpeed := -10000
    maxClimbRate := 12 / 10
    maxDescentRate := 8 / 10 }

/-- Height above ground lies within the reference floor and ceiling. -/
def aglInBand (p : Plane α) : Prop :=
  MIN_HEIGHT_AGL ≤ yToAGL p.pos.y ∧ yToAGL p.pos.y ≤ MAX_HEIGHT_AGL

/-- After the tick body the plane is inside the altitude band, whether the
body completed or threw (an error carries the state at the throw). -/
def tickPreservesBand (out : Except (Plane α × JsError) (Plane α)) : Prop :=
  match out with
  | .ok q => aglInBand q
  | .error (pe, _) => aglInBand pe

/-- A mid-blend plane used to exercise the Bezier step: blend factor one half
and a control point present. -/
def blendPlaneA : Plane α :=
  { basePlane with
    waypointBlendFactor := 1 / 2
    waypointControlPoint := some ⟨0, 400, 100⟩ }

/-- The state produced from blendPlaneA by one blend advance. -/
def blendPlaneA1 : Plane α :=
  { blendPlaneA with
    waypointBlendFactor := 503 / 1000
    smoothWaypoint :=
      bezierPoint (blendPlaneA : Plane α).waypoint ⟨0, 400, 100⟩
        (blendPlaneA : Plane α).targetWaypoint (easeOutCubic (503 / 1000)) }

/-- A plane within near-arrival range of its smooth waypoint with the blend
complete, so that the regeneration branch fires. -/
def arrivalPlane : Plane α :=
  { basePlane with smoothWaypoint := ⟨0, 400, 10⟩ }

/-- A plane whose blend factor reaches exactly one on the next advance. -/
def blendPlaneB : Plane α :=
  { blendPlaneA with waypointBlendFactor := 999 / 1000 }

/-- The state produced from blendPlaneB by one blend advance. -/
def blendPlaneB1 : Plane α :=
  { blendPlaneB with
    waypointBlendFactor := 1
    smoothWaypoint :=
      bezierPoint (blendPlaneB : Plane α).waypoint ⟨0, 400, 100⟩
        (blendPlaneB : Plane α).targetWaypoint (easeOutCubic 1) }

/-! Helper lemmas. -/

lemma wrapDown_le {pi x : α} (n : ℕ) (h : x ≤ pi + 2 * pi * n) : wrapDown pi n x ≤ pi := by
  induction n generalizing x with
  | zero => simpa [wrapDown] using h
  | succ n ih =>
    rw [wrapDown]
    split
    · apply ih
      push_cast at h ⊢
      linarith
    · exact not_lt.mp (by assumption)

lemma neg_le_wrapDown {pi x : α} (n : ℕ) (h : -pi ≤ x) : -pi ≤ wrapDown pi n x := by
  induction n generalizing x with
  | zero => simpa [wrapDown] using h
  | succ n ih =>
    rw [wrapDown]
    split
    · exact ih (by linarith [show pi < x from by assumption])
    · exact h

lemma wrapDown_of_le {pi x : α} (n : ℕ) (h : x ≤ pi) : wrapDown pi n x = x := by
  cases n with
  | zero => rfl
  | succ n => rw [wrapDown, if_neg (not_lt.mpr h)]

lemma wrapUp_le {pi x : α} (n : ℕ) (h : x ≤ pi) : wrapUp pi n x ≤ pi := by
  induction n generalizing x with
  | zero => simpa [wrapUp] using h
  | succ n ih =>
    rw [wrapUp]
    split
    · exact ih (by linarith [show x < -pi from by assumption])
    · exact h

lemma wrapUp_ge {pi x : α} (n : ℕ) (h : -(pi + 2 * pi * n) ≤ x) : -pi ≤ wrapUp pi n x := by
  induction n generalizing x with
  | zero => simpa [wrapUp] using h
  | succ n ih =>
    rw [wrapUp]
    split
    · apply ih
      push_cast at h ⊢
      linarith
    · exact not_lt.mp (by assumption)

lemma wrapUp_of_ge {pi x : α} (n : ℕ) (h : -pi ≤ x) : wrapUp pi n x = x := by
  cases n with
  | zero => rfl
  | succ n => rw [wrapUp, if_neg (not_lt.mpr h)]

lemma wrapToPi_mem {pi x : α} (n : ℕ) (hpi : 0 ≤ pi)
    (hlo : -(pi + 2 * pi * n) ≤ x) (hhi : x ≤ pi + 2 * pi * n) :
    wrapToPi pi n x ∈ Set.Icc (-pi) pi := by
  unfold wrapToPi
  by_cases hx : -pi ≤ x
  · rw [wrapUp_of_ge n (neg_le_wrapDown n hx)]
    exact ⟨neg_le_wrapDown n hx, wrapDown_le n hhi⟩
  · push_neg at hx
    rw [wrapDown_of_le n (le_trans hx.le (by linarith))]
    exact ⟨wrapUp_ge n hlo, wrapUp_le n (le_trans hx.le (by linarith))⟩

/-- The heading written by the orientation step is the previous heading plus
the clamped yaw velocity. -/
lemma orientationStep_heading (T : Trig α) (fuel : ℕ) (p : Plane α) :
    (orientationStep T fuel p).heading =
      p.heading +
        clamp ((p.yawVelocity + wrapToPi T.pi fuel (p.targetHeading - p.heading) * (2 / 100)) * (97 / 100))
          (-(6 / 1000)) (6 / 1000) := rfl

lemma abs_clamp_le {v c : α} (hc : 0 ≤ c) : |clamp v (-c) c| ≤ c := by
  rw [abs_le]
  exact ⟨le_max_left _ _, max_le (by linarith) (min_le_left _ _)⟩

/-! Claim theorems. -/

/-- C6 (corrected): for every targetHeading and heading whose difference the
loop fuel covers, the wrapped heading difference of main.js lines 1565-1568
lies in the closed interval [-pi, pi]; and every tick changes the heading by
at most the clamped maximum yaw rate 0.006 (main.js lines 1579-1582).  The
claimed half-open interval (-pi, pi] is refuted by the counterexample. -/
theorem C6_wrap_range_and_rate :
    (∀ (fuel : ℕ) (targetHeading heading : ℝ),
      -(Real.pi + 2 * Real.pi * fuel) ≤ targetHeading - heading →
      targetHeading - heading ≤ Real.pi + 2 * Real.pi * fuel →
      wrapToPi Real.pi fuel (targetHeading - heading) ∈ Set.Icc (-Real.pi) Real.pi) ∧
    (∀ (p : Plane ℝ) (fuel : ℕ),
      |(orientationStep realTrig fuel p).heading - p.heading| ≤ 6 / 1000) := by
  constructor
  · intro fuel t h hlo hhi
    exact wrapToPi_mem fuel Real.pi_pos.le hlo hhi
  · intro p fuel
    rw [orientationStep_heading, add_sub_cancel_left]
    exact abs_clamp_le (by norm_num)

/-- C6 counterexample: at targetHeading 0 and heading pi the wrapped
difference is exactly -pi, which is not in the half-open interval (-pi, pi]
demanded by the claim. -/
theorem C6_counterexample :
    wrapToPi Real.pi 1 ((0 : ℝ) - Real.pi) = -Real.pi ∧
    -Real.pi ∉ Set.Ioc (-Real.pi) Real.pi := by
  constructor
  · have h : (0 : ℝ) - Real.pi = -Real.pi := by ring
    rw [h, wrapToPi, wrapDown_of_le 1 (by linarith [Real.pi_pos]),
      wrapUp_of_ge 1 le_rfl]
  · simp

/-- C6 witness: the wrap theorem applied at targetHeading 1 and heading 0
with one unit of fuel. -/
theorem C6_witness :
    wrapToPi Real.pi 1 ((1 : ℝ) - 0) ∈ Set.Icc (-Real.pi) Real.pi :=
  C6_wrap_range_and_rate.1 1 1 0
    (by push_cast; nlinarith [Real.pi_gt_three])
    (by push_cast; nlinarith [Real.pi_gt_three])

/-- C7 (confirmed): two terrain updates from viewer positions in the same
chunk cell perform no creation or destruction on the second call, which
returns the state unchanged; and whenever the first call is not the early
exit, the loaded set afterwards is exactly the 3 x 3 square around the new
center (so every chunk outside it has been removed). -/
theorem C7_terrain_idempotent (m : TerrainChunkManager) (p1 p2 : ℚ × ℚ)
    (hx : ⌊p1.1 / CHUNK_SIZE⌋ = ⌊p2.1 / CHUNK_SIZE⌋)
    (hz : ⌊p1.2 / CHUNK_SIZE⌋ = ⌊p2.2 / CHUNK_SIZE⌋) :
    (m.update p1).1.update p2 = ((m.update p1).1, ∅, ∅) ∧
    (¬ (m.centerCx = some ⌊p1.1 / CHUNK_SIZE⌋ ∧ m.centerCz = some ⌊p1.2 / CHUNK_SIZE⌋ ∧
          0 < m.active.card) →
      (m.update p1).1.active = chunkNeeded ⌊p1.1 / CHUNK_SIZE⌋ ⌊p1.2 / CHUNK_SIZE⌋) := by
  by_cases hc : m.centerCx = some ⌊p1.1 / CHUNK_SIZE⌋ ∧ m.centerCz = some ⌊p1.2 / CHUNK_SIZE⌋ ∧
      0 < m.active.card
  · constructor
    · simp only [TerrainChunkManager.update, if_pos hc]
      rw [if_pos (by rw [← hx, ← hz]; exact hc)]
    · intro h
      exact absurd hc h
  · have hmem : (⌊p1.1 / CHUNK_SIZE⌋, ⌊p1.2 / CHUNK_SIZE⌋) ∈
        chunkNeeded ⌊p1.1 / CHUNK_SIZE⌋ ⌊p1.2 / CHUNK_SIZE⌋ := by
      simp only [chunkNeeded, Finset.mem_product, Finset.mem_Icc]
      omega
    constructor
    · simp only [TerrainChunkManager.update, if_neg hc]
      rw [if_pos]
      refine ⟨by rw [hx], by rw [hz], Finset.card_pos.mpr ⟨_, hmem⟩⟩
    · intro _
      simp only [TerrainChunkManager.update, if_neg hc]

/-- C7 witness: a fresh manager updated from (1000, 1000) and again from
(1999, 1), both inside chunk cell (0, 0). -/
theorem C7_witness :
    ((⟨none, none, ∅⟩ : TerrainChunkManager).update (1000, 1000)).1.update (1999, 1) =
      (((⟨none, none, ∅⟩ : TerrainChunkManager).update (1000, 1000)).1, ∅, ∅) :=
  (C7_terrain_idempotent ⟨none, none, ∅⟩ (1000, 1000) (1999, 1)
    (by norm_num [CHUNK_SIZE]) (by norm_num [CHUNK_SIZE])).1

/-- C8 (code_bug): the sun angle and radius follow the claimed formulas, yet
at timeOfDay one half (noon) the code computes sunY = sin(0) * 1700 = 0, so
the visibility gate sunY > 0 fails and the sun is invisible at noon, against
the claim, the scenario of the specification, and the comment of main.js line
1204 that the sun peaks at 0.5; the day phase is 1 and the night phase 0
there, the moon is invisible, and sunY in fact peaks at timeOfDay 0.75. -/
theorem C8_noon_sun :
    (updateDayNightCycle realTrig ((1 : ℝ) / 2)).sunY = 0 ∧
    ¬ (updateDayNightCycle realTrig ((1 : ℝ) / 2)).sunVisible ∧
    ¬ (updateDayNightCycle realTrig ((1 : ℝ) / 2)).moonVisible ∧
    (updateDayNightCycle realTrig ((1 : ℝ) / 2)).dayPhase = 1 ∧
    (updateDayNightCycle realTrig ((1 : ℝ) / 2)).nightPhase = 0 ∧
    (updateDayNightCycle realTrig ((3 : ℝ) / 4)).sunY = 1700 := by
  have h1 : ((1 : ℝ) / 2 - 1 / 2) * realTrig.pi * 2 = 0 := by ring
  have h2 : ((1 : ℝ) / 2 - 1 / 4) * realTrig.pi * 2 = Real.pi / 2 := by
    show ((1 : ℝ) / 2 - 1 / 4) * Real.pi * 2 = Real.pi / 2
    ring
  have h3 : ((3 : ℝ) / 4 - 1 / 2) * realTrig.pi * 2 = Real.pi / 2 := by
    show ((3 : ℝ) / 4 - 1 / 2) * Real.pi * 2 = Real.pi / 2
    ring
  simp only [updateDayNightCycle, h1, h2, h3]
  show Real.sin 0 * (2000 * (85 / 100)) = 0 ∧ _
  norm_num [Real.sin_pi_div_two, realTrig]

/-- C9 (confirmed): whenever the accumulated timer exceeds
WIND_CHANGE_INTERVAL, the wind change event sets the strength inside [0.5, 2]
and shifts the direction by at most pi/4 in either sense while resetting the
timer; otherwise only the timer advances. -/
theorem C9_wind_bounds (w : WindState ℝ) (r1 r2 dtv : ℝ)
    (h1 : 0 ≤ r1) (h2 : r1 ≤ 1) (h3 : 0 ≤ r2) (h4 : r2 ≤ 1) :
    (WIND_CHANGE_INTERVAL < w.changeTimer + dtv →
      (updateWind Real.pi r1 r2 dtv w).strength ∈ Set.Icc (1 / 2 : ℝ) 2 ∧
      |(updateWind Real.pi r1 r2 dtv w).direction - w.direction| ≤ Real.pi / 4 ∧
      (updateWind Real.pi r1 r2 dtv w).changeTimer = 0) ∧
    (¬ WIND_CHANGE_INTERVAL < w.changeTimer + dtv →
      (updateWind Real.pi r1 r2 dtv w).direction = w.direction ∧
      (updateWind Real.pi r1 r2 dtv w).strength = w.strength) := by
  constructor
  · intro h
    simp only [updateWind, if_pos h]
    refine ⟨⟨by nlinarith, by nlinarith⟩, ?_, by trivial⟩
    have hpi := Real.pi_pos
    rw [show w.direction + (r1 - 1 / 2) * Real.pi * (1 / 2) - w.direction =
        (r1 - 1 / 2) * Real.pi * (1 / 2) from by ring]
    rw [abs_le]
    constructor <;> nlinarith
  · intro h
    simp only [updateWind, if_neg h]
    exact ⟨by trivial, by trivial⟩

/-- C9 witness: the wind theorem applied to a timer just past the interval
with central draws. -/
theorem C9_witness :
    (updateWind Real.pi (1 / 2) (1 / 2) 1 ⟨0, 1, 60⟩).strength ∈ Set.Icc (1 / 2 : ℝ) 2 :=
  ((C9_wind_bounds ⟨0, 1, 60⟩ (1 / 2) (1 / 2) 1 (by norm_num) (by norm_num)
      (by norm_num) (by norm_num)).1 (by norm_num [WIND_CHANGE_INTERVAL])).1

/-- C10 (confirmed): in every call of the navigation light flashing routine,
in all three source variants, the red and green wing lights are never both
set to a nonzero intensity: every branch zeroes at least one of them. -/
theorem C10_nav_lights_exclusive (T : Trig ℝ) (planeSpeed time lightMultiplier : ℝ) :
    ((flashNavigationLights T planeSpeed time lightMultiplier).red = 0 ∨
      (flashNavigationLights T planeSpeed time lightMultiplier).green = 0) ∧
    ((flashNavigationLightsSimple T planeSpeed time).red = 0 ∨
      (flashNavigationLightsSimple T planeSpeed time).green = 0) := by
  constructor
  · simp only [flashNavigationLights]
    split_ifs <;> simp
  · simp only [flashNavigationLightsSimple]
    split_ifs <;> simp

lemma bezierPoint_zero (wp cp tgt : Vec3 α) : bezierPoint wp cp tgt (easeOutCubic 0) = wp := by
  obtain ⟨a, b, c⟩ := wp
  simp only [bezierPoint, easeOutCubic, Vec3.mk.injEq]
  norm_num

lemma bezierPoint_one (wp cp tgt : Vec3 α) : bezierPoint wp cp tgt (easeOutCubic 1) = tgt := by
  obtain ⟨a, b, c⟩ := tgt
  simp only [bezierPoint, easeOutCubic, Vec3.mk.injEq]
  norm_num

/-- C4 (confirmed): the blend factor never decreases across a blend advance;
the regeneration branch resets it to exactly 0; the Bezier combination at
blend factor 0 is exactly the old (current) waypoint; and in the tick in which
the blend factor reaches 1 the smooth waypoint becomes exactly the target
waypoint. -/
theorem C4_blend_invariants :
    (∀ (p q : Plane ℝ), blendStep p = .ok q →
      p.waypointBlendFactor ≤ q.waypointBlendFactor) ∧
    (∀ (rnd : TickRand ℝ) (p : Plane ℝ),
      (Vec3.sub p.smoothWaypoint p.pos).lenSq < 200 ^ 2 →
      99 / 100 ≤ p.waypointBlendFactor →
      (navRegenStep realTrig rnd p).waypointBlendFactor = 0) ∧
    (∀ (wp cp tgt : Vec3 ℝ), bezierPoint wp cp tgt (easeOutCubic 0) = wp) ∧
    (∀ (p q : Plane ℝ) (cp : Vec3 ℝ), p.waypointControlPoint = some cp →
      p.waypointBlendFactor < 1 → blendStep p = .ok q →
      q.waypointBlendFactor = 1 → q.smoothWaypoint = p.targetWaypoint) := by
  refine ⟨?_, ?_, fun wp cp tgt => bezierPoint_zero wp cp tgt, ?_⟩
  · intro p q h
    by_cases hb : p.waypointBlendFactor < 1
    · simp only [blendStep, if_pos hb] at h
      cases hcp : p.waypointControlPoint with
      | none => rw [hcp] at h; cases h
      | some cp =>
        rw [hcp] at h
        cases h
        exact le_min hb.le (by norm_num)
    · simp only [blendStep, if_neg hb] at h
      cases h
      exact le_rfl
  · intro rnd p h1 h2
    simp only [navRegenStep, if_pos (And.intro h1 h2)]
  · intro p q cp hcp hb h h1
    simp only [blendStep, if_pos hb, hcp] at h
    cases h
    simp only at h1 ⊢
    rw [h1, bezierPoint_one]

/-- C4 witness: the four parts exercised on concrete planes: a mid-blend
advance (monotone and capped), the regeneration branch on a plane within
arrival range (resets to 0), Bezier endpoint exactness at 0, and a blend
advance that lands exactly on 1 (smooth waypoint becomes the target). -/
theorem C4_witness :
    ((blendPlaneA : Plane ℝ).waypointBlendFactor ≤ (blendPlaneA1 : Plane ℝ).waypointBlendFactor) ∧
    (navRegenStep realTrig zeroTickRand (arrivalPlane : Plane ℝ)).waypointBlendFactor = 0 ∧
    bezierPoint (⟨1, 2, 3⟩ : Vec3 ℝ) ⟨4, 5, 6⟩ ⟨7, 8, 9⟩ (easeOutCubic 0) = ⟨1, 2, 3⟩ ∧
    (blendPlaneB1 : Plane ℝ).smoothWaypoint = (blendPlaneB : Plane ℝ).targetWaypoint := by
  have hA : blendStep (blendPlaneA : Plane ℝ) = .ok blendPlaneA1 := by
    simp only [blendStep, blendPlaneA, blendPlaneA1, basePlane]
    norm_num
  have hB : blendStep (blendPlaneB : Plane ℝ) = .ok blendPlaneB1 := by
    simp only [blendStep, blendPlaneB, blendPlaneB1, blendPlaneA, basePlane]
    norm_num
  refine ⟨C4_blend_invariants.1 _ _ hA, C4_blend_invariants.2.1 zeroTickRand _ ?_ ?_,
    C4_blend_invariants.2.2.1 _ _ _,
    C4_blend_invariants.2.2.2 (blendPlaneB : Plane ℝ) blendPlaneB1 ⟨0, 400, 100⟩ rfl
      (by norm_num [blendPlaneB, blendPlaneA, basePlane]) hB
      (by norm_num [blendPlaneB1, blendPlaneB, blendPlaneA, basePlane])⟩
  · norm_num [arrivalPlane, basePlane, Vec3.sub, Vec3.lenSq]
  · norm_num [arrivalPlane, basePlane]

/-- C5 (corrected): immediately after a respawn the horizontal distance from
the viewer equals the drawn spawn distance inside
[SPAWN_DISTANCE_MIN, SPAWN_DISTANCE_MAX], the altitude lies in the safe band,
the vertical speed is nonnegative, the waypoint is freshly generated from the
new position, and heading-related state (pitch, roll, turn rate, heading
timer) is reset; but the orientation-momentum velocities yawVelocity,
rollVelocity and pitchVelocity are left unchanged rather than reset, which
corrects the claim. -/
theorem C5_respawn_state (r : RespawnRand ℝ) (center : Vec3 ℝ) (p : Plane ℝ)
    (h1 : 0 ≤ r.rDist) (h2 : r.rDist ≤ 1) (h3 : 0 ≤ r.rAlt) (h4 : r.rAlt ≤ 1) :
    Real.sqrt (((respawnPlane realTrig r center p).pos.x - center.x) ^ 2 +
        ((respawnPlane realTrig r center p).pos.z - center.z) ^ 2) ∈
      Set.Icc (SPAWN_DISTANCE_MIN : ℝ) SPAWN_DISTANCE_MAX ∧
    yToAGL (respawnPlane realTrig r center p).pos.y ∈
      Set.Icc (SAFE_ZONE_MIN : ℝ) SAFE_ZONE_MAX ∧
    0 ≤ (respawnPlane realTrig r center p).vSpeed ∧
    (respawnPlane realTrig r center p).waypoint =
      generateWaypoint realTrig r.wp (respawnPlane realTrig r center p).pos ∧
    (respawnPlane realTrig r center p).pitch = 0 ∧
    (respawnPlane realTrig r center p).roll = 0 ∧
    (respawnPlane realTrig r center p).headingChangeTimer = 0 ∧
    (respawnPlane realTrig r center p).yawVelocity = p.yawVelocity ∧
    (respawnPlane realTrig r center p).rollVelocity = p.rollVelocity ∧
    (respawnPlane realTrig r center p).pitchVelocity = p.pitchVelocity := by
  have hd : (0 : ℝ) ≤ SPAWN_DISTANCE_MIN + r.rDist * (SPAWN_DISTANCE_MAX - SPAWN_DISTANCE_MIN) := by
    simp only [SPAWN_DISTANCE_MIN, SPAWN_DISTANCE_MAX]
    nlinarith
  have hx : (respawnPlane realTrig r center p).pos.x - center.x =
      Real.cos (r.rAngle * (Real.pi * 2)) *
        (SPAWN_DISTANCE_MIN + r.rDist * (SPAWN_DISTANCE_MAX - SPAWN_DISTANCE_MIN)) := by
    simp only [respawnPlane, updatePlaneProperties, realTrig]
    ring
  have hz : (respawnPlane realTrig r center p).pos.z - center.z =
      Real.sin (r.rAngle * (Real.pi * 2)) *
        (SPAWN_DISTANCE_MIN + r.rDist * (SPAWN_DISTANCE_MAX - SPAWN_DISTANCE_MIN)) := by
    simp only [respawnPlane, updatePlaneProperties, realTrig]
    ring
  refine ⟨?_, ?_, le_max_left _ _, rfl, rfl, rfl, rfl, rfl, rfl, rfl⟩
  · rw [hx, hz]
    have harg : (Real.cos (r.rAngle * (Real.pi * 2)) *
          (SPAWN_DISTANCE_MIN + r.rDist * (SPAWN_DISTANCE_MAX - SPAWN_DISTANCE_MIN))) ^ 2 +
        (Real.sin (r.rAngle * (Real.pi * 2)) *
          (SPAWN_DISTANCE_MIN + r.rDist * (SPAWN_DISTANCE_MAX - SPAWN_DISTANCE_MIN))) ^ 2 =
        (SPAWN_DISTANCE_MIN + r.rDist * (SPAWN_DISTANCE_MAX - SPAWN_DISTANCE_MIN)) ^ 2 := by
      linear_combination ((SPAWN_DISTANCE_MIN : ℝ) +
          r.rDist * (SPAWN_DISTANCE_MAX - SPAWN_DISTANCE_MIN)) ^ 2 *
        Real.sin_sq_add_cos_sq (r.rAngle * (Real.pi * 2))
    rw [harg, Real.sqrt_sq hd]
    simp only [SPAWN_DISTANCE_MIN, SPAWN_DISTANCE_MAX, Set.mem_Icc] at hd ⊢
    constructor <;> nlinarith
  · show yToAGL (computeSpawnAltitude r.rAlt) ∈ _
    simp only [computeSpawnAltitude, aglToY, yToAGL, GROUND_HEIGHT, SAFE_ZONE_MIN, SAFE_ZONE_MAX,
      MIN_HEIGHT_AGL, MAX_HEIGHT_AGL, FLOOR_AVOIDANCE_DIST, CEILING_AVOIDANCE_DIST, Set.mem_Icc]
    constructor <;> nlinarith

/-- C5 counterexample: a plane carrying yaw momentum 0.01 still carries it
after respawnPlane, so the orientation-momentum state is not reset to neutral
as the claim demands. -/
theorem C5_counterexample :
    (respawnPlane realTrig zeroRespawnRand ⟨0, 0, 0⟩
        { basePlane with yawVelocity := 1 / 100 : Plane ℝ }).yawVelocity = 1 / 100 ∧
    ((1 : ℝ) / 100) ≠ 0 :=
  ⟨rfl, by norm_num⟩

/-- C5 witness: the respawn theorem applied to the zero draws around the
origin. -/
theorem C5_witness :
    0 ≤ (respawnPlane realTrig zeroRespawnRand ⟨0, 0, 0⟩ (basePlane : Plane ℝ)).vSpeed :=
  (C5_respawn_state zeroRespawnRand ⟨0, 0, 0⟩ basePlane (by norm_num [zeroRespawnRand])
    (by norm_num [zeroRespawnRand]) (by norm_num [zeroRespawnRand])
    (by norm_num [zeroRespawnRand])).2.2.1

/-! Field bookkeeping for the tick stages: which plane fields each stage
leaves untouched, and how the stages that move the plane change position.y. -/

@[simp] lemma waypointTimerStep_pos (T : Trig α) (rnd : TickRand α) (p : Plane α) :
    (waypointTimerStep T rnd p).pos = p.pos := by
  simp only [waypointTimerStep]; split <;> split <;> rfl

@[simp] lemma waypointTimerStep_vSpeed (T : Trig α) (rnd : TickRand α) (p : Plane α) :
    (waypointTimerStep T rnd p).vSpeed = p.vSpeed := by
  simp only [waypointTimerStep]; split <;> split <;> rfl

@[simp] lemma waypointTimerStep_maxClimbRate (T : Trig α) (rnd : TickRand α) (p : Plane α) :
    (waypointTimerStep T rnd p).maxClimbRate = p.maxClimbRate := by
  simp only [waypointTimerStep]; split <;> split <;> rfl

@[simp] lemma waypointTimerStep_maxDescentRate (T : Trig α) (rnd : TickRand α) (p : Plane α) :
    (waypointTimerStep T rnd p).maxDescentRate = p.maxDescentRate := by
  simp only [waypointTimerStep]; split <;> split <;> rfl

@[simp] lemma waypointTimerStep_baseSpeed (T : Trig α) (rnd : TickRand α) (p : Plane α) :
    (waypointTimerStep T rnd p).baseSpeed = p.baseSpeed := by
  simp only [waypointTimerStep]; split <;> split <;> rfl

@[simp] lemma waypointTimerStep_turbulenceOffset (T : Trig α) (rnd : TickRand α) (p : Plane α) :
    (waypointTimerStep T rnd p).turbulenceOffset = p.turbulenceOffset := by
  simp only [waypointTimerStep]; split <;> split <;> rfl

@[simp] lemma navInitStep_pos (p : Plane α) : (navInitStep p).pos = p.pos := by
  simp only [navInitStep]; split <;> rfl

@[simp] lemma navInitStep_vSpeed (p : Plane α) : (navInitStep p).vSpeed = p.vSpeed := by
  simp only [navInitStep]; split <;> rfl

@[simp] lemma navInitStep_maxClimbRate (p : Plane α) :
    (navInitStep p).maxClimbRate = p.maxClimbRate := by
  simp only [navInitStep]; split <;> rfl

@[simp] lemma navInitStep_maxDescentRate (p : Plane α) :
    (navInitStep p).maxDescentRate = p.maxDescentRate := by
  simp only [navInitStep]; split <;> rfl

@[simp] lemma navInitStep_baseSpeed (p : Plane α) : (navInitStep p).baseSpeed = p.baseSpeed := by
  simp only [navInitStep]; split <;> rfl

@[simp] lemma navInitStep_turbulenceOffset (p : Plane α) :
    (navInitStep p).turbulenceOffset = p.turbulenceOffset := by
  simp only [navInitStep]; split <;> rfl

@[simp] lemma navInitStep_waypointTimer (p : Plane α) :
    (navInitStep p).waypointTimer = p.waypointTimer := by
  simp only [navInitStep]; split <;> rfl

@[simp] lemma navRegenStep_pos (T : Trig α) (rnd : TickRand α) (p : Plane α) :
    (navRegenStep T rnd p).pos = p.pos := by
  simp only [navRegenStep]; split <;> rfl

@[simp] lemma navRegenStep_vSpeed (T : Trig α) (rnd : TickRand α) (p : Plane α) :
    (navRegenStep T rnd p).vSpeed = p.vSpeed := by
  simp only [navRegenStep]; split <;> rfl

@[simp] lemma navRegenStep_maxClimbRate (T : Trig α) (rnd : TickRand α) (p : Plane α) :
    (navRegenStep T rnd p).maxClimbRate = p.maxClimbRate := by
  simp only [navRegenStep]; split <;> rfl

@[simp] lemma navRegenStep_maxDescentRate (T : Trig α) (rnd : TickRand α) (p : Plane α) :
    (navRegenStep T rnd p).maxDescentRate = p.maxDescentRate := by
  simp only [navRegenStep]; split <;> rfl

@[simp] lemma navRegenStep_baseSpeed (T : Trig α) (rnd : TickRand α) (p : Plane α) :
    (navRegenStep T rnd p).baseSpeed = p.baseSpeed := by
  simp only [navRegenStep]; split <;> rfl

@[simp] lemma navRegenStep_turbulenceOffset (T : Trig α) (rnd : TickRand α) (p : Plane α) :
    (navRegenStep T rnd p).turbulenceOffset = p.turbulenceOffset := by
  simp only [navRegenStep]; split <;> rfl

@[simp] lemma navRegenStep_waypointTimer (T : Trig α) (rnd : TickRand α) (p : Plane α) :
    (navRegenStep T rnd p).waypointTimer = p.waypointTimer := by
  simp only [navRegenStep]; split <;> rfl

@[simp] lemma smoothClampStep_pos (p : Plane α) : (smoothClampStep p).pos = p.pos := by
  simp only [smoothClampStep]; split <;> try split
  all_goals rfl

@[simp] lemma smoothClampStep_vSpeed (p : Plane α) : (smoothClampStep p).vSpeed = p.vSpeed := by
  simp only [smoothClampStep]; split <;> try split
  all_goals rfl

@[simp] lemma smoothClampStep_maxClimbRate (p : Plane α) :
    (smoothClampStep p).maxClimbRate = p.maxClimbRate := by
  simp only [smoothClampStep]; split <;> try split
  all_goals rfl

@[simp] lemma smoothClampStep_maxDescentRate (p : Plane α) :
    (smoothClampStep p).maxDescentRate = p.maxDescentRate := by
  simp only [smoothClampStep]; split <;> try split
  all_goals rfl

@[simp] lemma smoothClampStep_baseSpeed (p : Plane α) :
    (smoothClampStep p).baseSpeed = p.baseSpeed := by
  simp only [smoothClampStep]; split <;> try split
  all_goals rfl

@[simp] lemma smoothClampStep_turbulenceOffset (p : Plane α) :
    (smoothClampStep p).turbulenceOffset = p.turbulenceOffset := by
  simp only [smoothClampStep]; split <;> try split
  all_goals rfl

@[simp] lemma smoothClampStep_waypointTimer (p : Plane α) :
    (smoothClampStep p).waypointTimer = p.waypointTimer := by
  simp only [smoothClampStep]; split <;> try split
  all_goals rfl

/-- The blend advance only touches the blend factor and the smooth waypoint. -/
lemma blendStep_ok_preserves {p q : Plane α} (h : blendStep p = .ok q) :
    q.pos = p.pos ∧ q.vSpeed = p.vSpeed ∧ q.maxClimbRate = p.maxClimbRate ∧
    q.maxDescentRate = p.maxDescentRate ∧ q.baseSpeed = p.baseSpeed ∧
    q.turbulenceOffset = p.turbulenceOffset ∧ q.waypointTimer = p.waypointTimer := by
  by_cases hb : p.waypointBlendFactor < 1
  · simp only [blendStep, if_pos hb] at h
    cases hcp : p.waypointControlPoint with
    | none => rw [hcp] at h; cases h
    | some cp => rw [hcp] at h; cases h; exact ⟨rfl, rfl, rfl, rfl, rfl, rfl, rfl⟩
  · simp only [blendStep, if_neg hb] at h
    cases h; exact ⟨rfl, rfl, rfl, rfl, rfl, rfl, rfl⟩

/-- The blend advance carries the pre-advance plane (with the incremented
factor) into its error. -/
lemma blendStep_error_pos {p pe : Plane α} {e : JsError} (h : blendStep p = .error (pe, e)) :
    pe.pos = p.pos := by
  by_cases hb : p.waypointBlendFactor < 1
  · simp only [blendStep, if_pos hb] at h
    cases hcp : p.waypointControlPoint with
    | none => rw [hcp] at h; cases h; rfl
    | some cp => rw [hcp] at h; cases h
  · simp only [blendStep, if_neg hb] at h; cases h

/-- The vertical stage throws with the plane state unchanged. -/
lemma verticalAndHeadingStep_error_state {T : Trig α} {a : α} {p pe : Plane α} {e : JsError}
    (h : verticalAndHeadingStep T a p = .error (pe, e)) : pe = p := by
  simp only [verticalAndHeadingStep] at h
  split_ifs at h <;> cases h <;> rfl

/-- Away from the deep danger zones the vertical stage completes, writing
only the heading target and the lerped, performance-clamped vertical speed. -/
lemma verticalAndHeadingStep_ok (T : Trig α) (a : α) (p : Plane α)
    (h1 : FLOOR_AVOIDANCE_DIST * (1 / 2) ≤ a - MIN_HEIGHT_AGL)
    (h2 : CEILING_AVOIDANCE_DIST * (1 / 2) ≤ MAX_HEIGHT_AGL - a) :
    ∃ q, verticalAndHeadingStep T a p = .ok q ∧ q.pos = p.pos ∧
      q.baseSpeed = p.baseSpeed ∧ q.turbulenceOffset = p.turbulenceOffset ∧
      q.waypointTimer = p.waypointTimer ∧
      ∃ d, q.vSpeed = lerp p.vSpeed
        (clamp d (-(if p.maxDescentRate = 0 then 8 / 10 else p.maxDescentRate))
          (if p.maxClimbRate = 0 then 12 / 10 else p.maxClimbRate)) (2 / 10) := by
  simp only [verticalAndHeadingStep]
  by_cases hf : a - MIN_HEIGHT_AGL < FLOOR_AVOIDANCE_DIST
  · rw [if_pos hf, if_neg (not_lt.mpr h1)]
    exact ⟨_, rfl, rfl, rfl, rfl, rfl, _, rfl⟩
  · rw [if_neg hf]
    by_cases hcil : MAX_HEIGHT_AGL - a < CEILING_AVOIDANCE_DIST
    · rw [if_pos hcil, if_neg (not_lt.mpr h2)]
      exact ⟨_, rfl, rfl, rfl, rfl, rfl, _, rfl⟩
    · rw [if_neg hcil]
      exact ⟨_, rfl, rfl, rfl, rfl, rfl, _, rfl⟩

/-- Deep inside the floor danger zone the vertical stage always throws the
ReferenceError of main.js line 1520, before any state is written. -/
lemma verticalAndHeadingStep_deep_floor (T : Trig α) (a : α) (p : Plane α)
    (h : a - MIN_HEIGHT_AGL < FLOOR_AVOIDANCE_DIST * (1 / 2)) :
    verticalAndHeadingStep T a p = .error (p, .referenceError) := by
  have h0 : a - MIN_HEIGHT_AGL < FLOOR_AVOIDANCE_DIST := by
    simp only [FLOOR_AVOIDANCE_DIST] at h ⊢
    linarith
  simp only [verticalAndHeadingStep]
  rw [if_pos h0, if_pos h]

/-- Deep inside the ceiling danger zone the vertical stage always throws the
ReferenceError of main.js line 1531. -/
lemma verticalAndHeadingStep_deep_ceiling (T : Trig α) (a : α) (p : Plane α)
    (h1 : ¬ a - MIN_HEIGHT_AGL < FLOOR_AVOIDANCE_DIST)
    (h2 : MAX_HEIGHT_AGL - a < CEILING_AVOIDANCE_DIST * (1 / 2)) :
    verticalAndHeadingStep T a p = .error (p, .referenceError) := by
  have h0 : MAX_HEIGHT_AGL - a < CEILING_AVOIDANCE_DIST := by
    simp only [CEILING_AVOIDANCE_DIST] at h2 ⊢
    linarith
  simp only [verticalAndHeadingStep]
  rw [if_neg h1, if_pos h0, if_pos h2]

/-- The lerped, clamped vertical speed stays inside the same envelope as its
input. -/
lemma lerp_clamp_mem (v d lo hi : α) (h1 : lo ≤ v) (h2 : v ≤ hi) (hlohi : lo ≤ hi) :
    lo ≤ lerp v (clamp d lo hi) (2 / 10) ∧ lerp v (clamp d lo hi) (2 / 10) ≤ hi := by
  have hc1 : lo ≤ clamp d lo hi := le_max_left _ _
  have hc2 : clamp d lo hi ≤ hi := max_le hlohi (min_le_left _ _)
  unfold lerp
  constructor <;> nlinarith

@[simp] lemma integrateStep_pos_y (p : Plane α) :
    (integrateStep p).pos.y = p.pos.y + p.vSpeed * dt := rfl

@[simp] lemma integrateStep_vSpeed (p : Plane α) : (integrateStep p).vSpeed = p.vSpeed := rfl

@[simp] lemma integrateStep_baseSpeed (p : Plane α) : (integrateStep p).baseSpeed = p.baseSpeed := rfl

@[simp] lemma integrateStep_turbulenceOffset (p : Plane α) :
    (integrateStep p).turbulenceOffset = p.turbulenceOffset := rfl

@[simp] lemma integrateStep_waypointTimer (p : Plane α) :
    (integrateStep p).waypointTimer = p.waypointTimer := rfl

/-- The speed written by updatePlaneProperties after the vertical
integration. -/
lemma integrateStep_speed (p : Plane α) :
    (integrateStep p).speed =
      (5 / 100 + ((yToAGL (p.pos.y + p.vSpeed * dt) - MIN_HEIGHT_AGL) /
          (MAX_HEIGHT_AGL - MIN_HEIGHT_AGL)) * (15 / 100)) *
        (if p.baseSpeed = 0 then 1 else p.baseSpeed) * DEBUG_PLANE_SPEED_MULT := rfl

@[simp] lemma orientationStep_pos (T : Trig α) (fuel : ℕ) (p : Plane α) :
    (orientationStep T fuel p).pos = p.pos := rfl

@[simp] lemma orientationStep_speed (T : Trig α) (fuel : ℕ) (p : Plane α) :
    (orientationStep T fuel p).speed = p.speed := rfl

@[simp] lemma orientationStep_vSpeed (T : Trig α) (fuel : ℕ) (p : Plane α) :
    (orientationStep T fuel p).vSpeed = p.vSpeed := rfl

@[simp] lemma orientationStep_turbulenceOffset (T : Trig α) (fuel : ℕ) (p : Plane α) :
    (orientationStep T fuel p).turbulenceOffset = p.turbulenceOffset := rfl

@[simp] lemma orientationStep_waypointTimer (T : Trig α) (fuel : ℕ) (p : Plane α) :
    (orientationStep T fuel p).waypointTimer = p.waypointTimer := rfl

@[simp] lemma translateStep_pos_y (T : Trig α) (p : Plane α) :
    (translateStep T p).pos.y = p.pos.y + -T.sin p.pitch * p.speed := rfl

@[simp] lemma translateStep_turbulenceOffset (T : Trig α) (p : Plane α) :
    (translateStep T p).turbulenceOffset = p.turbulenceOffset := rfl

@[simp] lemma translateStep_waypointTimer (T : Trig α) (p : Plane α) :
    (translateStep T p).waypointTimer = p.waypointTimer := rfl

@[simp] lemma windDriftStep_pos_y (T : Trig α) (wind : WindState α) (p : Plane α) :
    (windDriftStep T wind p).pos.y = p.pos.y := by
  simp [windDriftStep, Vec3.add]

@[simp] lemma windDriftStep_turbulenceOffset (T : Trig α) (wind : WindState α) (p : Plane α) :
    (windDriftStep T wind p).turbulenceOffset = p.turbulenceOffset := rfl

@[simp] lemma windDriftStep_waypointTimer (T : Trig α) (wind : WindState α) (p : Plane α) :
    (windDriftStep T wind p).waypointTimer = p.waypointTimer := rfl

@[simp] lemma turbulenceStep_waypointTimer (rnd : TickRand α) (wind : WindState α) (p : Plane α) :
    (turbulenceStep rnd wind p).waypointTimer = p.waypointTimer := rfl

/-- Whether or not the offset is redrawn, one tick of turbulence moves the
altitude by at most 0.012 when the stored offset and the draws are inside
their generation ranges. -/
lemma turbulenceStep_pos_y_bound (rnd : TickRand α) (wind : WindState α) (p : Plane α)
    (hoff : |p.turbulenceOffset.y| ≤ 24 / 100)
    (hs1 : 0 ≤ wind.strength) (hs2 : wind.strength ≤ 2)
    (hr1 : 0 ≤ rnd.rTurbY) (hr2 : rnd.rTurbY ≤ 1) :
    |(turbulenceStep rnd wind p).pos.y - p.pos.y| ≤ 12 / 1000 := by
  simp only [turbulenceStep, Vec3.add, Vec3.smul, dt]
  split
  · rw [abs_le] at hoff ⊢
    constructor <;> · simp only [add_sub_cancel_left]; nlinarith
  · rw [abs_le] at hoff ⊢
    constructor <;> · simp only [add_sub_cancel_left]; nlinarith

@[simp] lemma wobbleStep_pos (T : Trig α) (time : α) (wind : WindState α) (p : Plane α) :
    (wobbleStep T time wind p).pos = p.pos := rfl

@[simp] lemma wobbleStep_waypointTimer (T : Trig α) (time : α) (wind : WindState α) (p : Plane α) :
    (wobbleStep T time wind p).waypointTimer = p.waypointTimer := rfl

@[simp] lemma respawnOrLightsStep_waypointTimer (T : Trig α) (rnd : TickRand α) (cam : Vec3 α)
    (timeOfDay : α) (p : Plane α) :
    (respawnOrLightsStep T rnd cam timeOfDay p).waypointTimer = p.waypointTimer := by
  simp only [respawnOrLightsStep, respawnPlane, updatePlaneProperties]; split <;> rfl

/-- The despawn stage either respawns the plane at a safe-band altitude or
leaves the position untouched. -/
lemma respawnOrLightsStep_pos_y (T : Trig α) (rnd : TickRand α) (cam : Vec3 α)
    (timeOfDay : α) (p : Plane α) :
    (respawnOrLightsStep T rnd cam timeOfDay p).pos.y = computeSpawnAltitude rnd.respawn.rAlt ∨
    (respawnOrLightsStep T rnd cam timeOfDay p).pos.y = p.pos.y := by
  simp only [respawnOrLightsStep]
  split
  · exact Or.inl rfl
  · exact Or.inr rfl

/-- Evaluating the tick body on a plane deep in the floor danger zone reaches
the relocation guard of main.js line 1520 and throws the ReferenceError for
the undeclared waypointAltitude, with only the waypoint timer advanced. -/
lemma planeTick_badPlane (T : Trig α) (fuel : ℕ) (rnd : TickRand α) (cam : Vec3 α)
    (timeOfDay time : α) (wind : WindState α) :
    planeTick T fuel rnd cam timeOfDay time wind badPlane =
      .error ({ badPlane with waypointTimer := 1 / 60 }, .referenceError) := by
  simp only [planeTick, waypointTimerStep, navInitStep, navRegenStep, blendStep,
    smoothClampStep, verticalAndHeadingStep, badPlane, basePlane, Vec3.sub, Vec3.lenSq,
    yToAGL, aglToY, GROUND_HEIGHT, MIN_HEIGHT_AGL, MAX_HEIGHT_AGL, FLOOR_AVOIDANCE_DIST,
    CEILING_AVOIDANCE_DIST, SAFE_ZONE_MIN, SAFE_ZONE_MAX, dt]
  norm_num

/-- Evaluating the tick body on a plane deep in the ceiling danger zone
reaches the symmetric guard of main.js line 1531 and throws the same
ReferenceError. -/
lemma planeTick_ceilPlane (T : Trig α) (fuel : ℕ) (rnd : TickRand α) (cam : Vec3 α)
    (timeOfDay time : α) (wind : WindState α) :
    planeTick T fuel rnd cam timeOfDay time wind ceilPlane =
      .error ({ ceilPlane with waypointTimer := 1 / 60 }, .referenceError) := by
  simp only [planeTick, waypointTimerStep, navInitStep, navRegenStep, blendStep,
    smoothClampStep, verticalAndHeadingStep, ceilPlane, basePlane, Vec3.sub, Vec3.lenSq,
    yToAGL, aglToY, GROUND_HEIGHT, MIN_HEIGHT_AGL, MAX_HEIGHT_AGL, FLOOR_AVOIDANCE_DIST,
    CEILING_AVOIDANCE_DIST, SAFE_ZONE_MIN, SAFE_ZONE_MAX, dt]
  norm_num

/-- C1 (code_bug): on every entity whose floor distance is below half of
FLOOR_AVOIDANCE_DIST (here 50 < 75, waypoint altitude 300 in the lower half
of the safe band), the tick does not relocate the waypoint altitude into the
upper half of the safe band: evaluating the relocation guard reads the
undeclared identifier waypointAltitude (main.js line 1520) and throws a
ReferenceError, for every trig oracle and every random draw; symmetrically
near the ceiling (main.js line 1531).  The waypoint is left unmoved in the
carried error state. -/
theorem C1_deep_danger_throws (T : Trig α) (fuel : ℕ) (rnd : TickRand α) (cam : Vec3 α)
    (timeOfDay time : α) (wind : WindState α) :
    planeTick T fuel rnd cam timeOfDay time wind badPlane =
      .error ({ badPlane with waypointTimer := 1 / 60 }, .referenceError) ∧
    planeTick T fuel rnd cam timeOfDay time wind ceilPlane =
      .error ({ ceilPlane with waypointTimer := 1 / 60 }, .referenceError) :=
  ⟨planeTick_badPlane T fuel rnd cam timeOfDay time wind,
   planeTick_ceilPlane T fuel rnd cam timeOfDay time wind⟩

/-- The plane loop returns one output state per input plane even when it
aborts on an error. -/
lemma tickLoop_length (T : Trig α) (fuel : ℕ) (rands : ℕ → TickRand α) (cam : Vec3 α)
    (timeOfDay time : α) (wind : WindState α) (i : ℕ) (ps : List (Plane α)) :
    (tickLoop T fuel rands cam timeOfDay time wind i ps).1.length = ps.length := by
  induction ps generalizing i with
  | nil => rfl
  | cons p ps ih =>
    rw [tickLoop]
    cases planeTick T fuel (rands i) cam timeOfDay time wind p with
    | ok q => simpa using ih (i + 1)
    | error e => obtain ⟨pe, e⟩ := e; simp

/-- C2 (corrected): the planes.forEach body has no per-entity error handler,
so an exception thrown while updating one plane aborts the updates of all
planes after it in that tick, which keep their previous state; the erring
plane keeps its partially mutated state.  The animation loop itself survives
(the next frame is scheduled before the updates), and no plane is lost: the
frame always hands one state per plane to the next frame. -/
theorem C2_tick_failure_aborts_rest :
    (∀ (T : Trig ℝ) (fuel : ℕ) (rands : ℕ → TickRand ℝ) (cam : Vec3 ℝ)
        (timeOfDay time : ℝ) (wind : WindState ℝ) (i : ℕ) (p : Plane ℝ)
        (rest : List (Plane ℝ)) (pe : Plane ℝ) (e : JsError),
      planeTick T fuel (rands i) cam timeOfDay time wind p = .error (pe, e) →
      tickLoop T fuel rands cam timeOfDay time wind i (p :: rest) = (pe :: rest, some e)) ∧
    (∀ (T : Trig ℝ) (fuel : ℕ) (rW1 rW2 : ℝ) (rands : ℕ → TickRand ℝ) (cam : Vec3 ℝ)
        (time : ℝ) (s : SimState ℝ),
      (animateFrame T fuel rW1 rW2 rands cam time s).1.planes.length = s.planes.length) := by
  constructor
  · intro T fuel rands cam timeOfDay time wind i p rest pe e h
    rw [tickLoop, h]
  · intro T fuel rW1 rW2 rands cam time s
    exact tickLoop_length ..

/-- C2 counterexample: with a deep-danger plane first in the list, the tick
aborts with the ReferenceError and the second (healthy) plane is returned
with its previous state, even though updating it alone would have succeeded
and advanced its waypoint timer from 0 to 1/60. -/
theorem C2_counterexample :
    (tickLoop realTrig 1 (fun _ => zeroTickRand) ⟨0, 0, 0⟩ (1 / 4) 0 ⟨0, 1, 0⟩ 0
        [badPlane, basePlane]).1.drop 1 = [(basePlane : Plane ℝ)] ∧
    (tickLoop realTrig 1 (fun _ => zeroTickRand) ⟨0, 0, 0⟩ (1 / 4) 0 ⟨0, 1, 0⟩ 0
        [badPlane, basePlane]).2 = some JsError.referenceError ∧
    (planeTick realTrig 1 zeroTickRand ⟨0, 0, 0⟩ (1 / 4) 0 ⟨0, 1, 0⟩
        (basePlane : Plane ℝ)).map Plane.waypointTimer = .ok (1 / 60) ∧
    (basePlane : Plane ℝ).waypointTimer = 0 := by
  have hb := planeTick_badPlane realTrig 1 zeroTickRand ⟨0, 0, 0⟩ (1 / 4) 0 ⟨0, 1, 0⟩
  refine ⟨by rw [tickLoop, hb]; rfl, by rw [tickLoop, hb], ?_, rfl⟩
  have s1 : waypointTimerStep realTrig zeroTickRand (basePlane : Plane ℝ) =
      { (basePlane : Plane ℝ) with waypointTimer := 1 / 60 } := by
    simp only [waypointTimerStep, basePlane, dt]
    norm_num
  have s2 : navInitStep { (basePlane : Plane ℝ) with waypointTimer := 1 / 60 } =
      { (basePlane : Plane ℝ) with waypointTimer := 1 / 60 } := rfl
  have s3 : navRegenStep realTrig zeroTickRand
        { (basePlane : Plane ℝ) with waypointTimer := 1 / 60 } =
      { (basePlane : Plane ℝ) with waypointTimer := 1 / 60 } := by
    simp only [navRegenStep, basePlane, Vec3.sub, Vec3.lenSq]
    norm_num
  have s4 : blendStep { (basePlane : Plane ℝ) with waypointTimer := 1 / 60 } =
      .ok { (basePlane : Plane ℝ) with waypointTimer := 1 / 60 } := by
    simp only [blendStep, basePlane]
    norm_num
  have s5 : smoothClampStep { (basePlane : Plane ℝ) with waypointTimer := 1 / 60 } =
      { (basePlane : Plane ℝ) with waypointTimer := 1 / 60 } := by
    simp only [smoothClampStep, basePlane, yToAGL, aglToY, GROUND_HEIGHT, SAFE_ZONE_MIN,
      SAFE_ZONE_MAX, MIN_HEIGHT_AGL, MAX_HEIGHT_AGL, FLOOR_AVOIDANCE_DIST,
      CEILING_AVOIDANCE_DIST]
    norm_num
  obtain ⟨q5, hv, hq5pos, hq5bs, hq5to, hq5wt, d, hq5vs⟩ :=
    verticalAndHeadingStep_ok realTrig (yToAGL (basePlane : Plane ℝ).pos.y)
      { (basePlane : Plane ℝ) with waypointTimer := 1 / 60 }
      (by norm_num [yToAGL, GROUND_HEIGHT, basePlane, MIN_HEIGHT_AGL, FLOOR_AVOIDANCE_DIST])
      (by norm_num [yToAGL, GROUND_HEIGHT, basePlane, MAX_HEIGHT_AGL, CEILING_AVOIDANCE_DIST])
  simp only [planeTick, s1, s2, s3, s4, s5, hv, Except.map, respawnOrLightsStep_waypointTimer,
    wobbleStep_waypointTimer, turbulenceStep_waypointTimer, windDriftStep_waypointTimer,
    translateStep_waypointTimer, orientationStep_waypointTimer, integrateStep_waypointTimer,
    hq5wt]

/-- C2 witness: the abort equation applied to a single-element list headed by
the deep-danger plane. -/
theorem C2_witness :
    tickLoop realTrig 1 (fun _ => zeroTickRand) ⟨0, 0, 0⟩ (1 / 4) 0 ⟨0, 1, 0⟩ 0
        [(badPlane : Plane ℝ)] =
      ([{ badPlane with waypointTimer := 1 / 60 }], some JsError.referenceError) :=
  C2_tick_failure_aborts_rest.1 realTrig 1 (fun _ => zeroTickRand) ⟨0, 0, 0⟩ (1 / 4) 0
    ⟨0, 1, 0⟩ 0 badPlane [] _ _
    (planeTick_badPlane realTrig 1 zeroTickRand ⟨0, 0, 0⟩ (1 / 4) 0 ⟨0, 1, 0⟩)

set_option maxHeartbeats 1600000 in
/-- From a plane outside the deep danger zones and inside the reachable state
envelope, the stages after the vertical decision (integration, orientation,
forward translation, wind drift, turbulence, wobble and the despawn check)
leave the altitude inside the reference band: the per-tick vertical travel is
bounded by roughly 0.83 while at least 75 of margin remains on each side, and
a respawn lands inside the safe band. -/
lemma postVerticalChain_band (fuel : ℕ) (rnd : TickRand ℝ) (cam : Vec3 ℝ)
    (timeOfDay time : ℝ) (wind : WindState ℝ) (q : Plane ℝ)
    (hy1 : 125 ≤ q.pos.y) (hy2 : q.pos.y ≤ 725)
    (hv1 : -(9 / 10) ≤ q.vSpeed) (hv2 : q.vSpeed ≤ 16 / 10)
    (hbs1 : 0 ≤ q.baseSpeed) (hbs2 : q.baseSpeed ≤ 27 / 20)
    (hoff : |q.turbulenceOffset.y| ≤ 24 / 100)
    (hws1 : 0 ≤ wind.strength) (hws2 : wind.strength ≤ 2)
    (hr1 : 0 ≤ rnd.rTurbY) (hr2 : rnd.rTurbY ≤ 1)
    (hra1 : 0 ≤ rnd.respawn.rAlt) (hra2 : rnd.respawn.rAlt ≤ 1) :
    aglInBand (respawnOrLightsStep realTrig rnd cam timeOfDay
      (wobbleStep realTrig time wind (turbulenceStep rnd wind
        (windDriftStep realTrig wind (translateStep realTrig
          (orientationStep realTrig fuel (integrateStep q))))))) := by
  set P1 := integrateStep q with hP1
  set P2 := orientationStep realTrig fuel P1 with hP2
  set P3 := translateStep realTrig P2 with hP3
  set P4 := windDriftStep realTrig wind P3 with hP4
  set P5 := turbulenceStep rnd wind P4 with hP5
  set P6 := wobbleStep realTrig time wind P5 with hP6
  have hy1' : P1.pos.y = q.pos.y + q.vSpeed * dt := by rw [hP1, integrateStep_pos_y]
  have hy1b : 124 ≤ P1.pos.y ∧ P1.pos.y ≤ 726 := by
    rw [hy1']
    simp only [dt]
    constructor <;> linarith
  have hsp : 0 ≤ P1.speed ∧ P1.speed ≤ 4 / 5 := by
    rw [hP1, integrateStep_speed]
    simp only [yToAGL, GROUND_HEIGHT, MIN_HEIGHT_AGL, MAX_HEIGHT_AGL,
      DEBUG_PLANE_SPEED_MULT, dt, sub_zero]
    have hyb1 : (124 : ℝ) ≤ q.pos.y + q.vSpeed * (1 / 60) := by linarith
    have hyb2 : q.pos.y + q.vSpeed * (1 / 60) ≤ 726 := by linarith
    have hA1 : (5 : ℝ) / 100 ≤
        5 / 100 + (q.pos.y + q.vSpeed * (1 / 60) - 50) / (800 - 50) * (15 / 100) := by
      linarith
    have hA2 : 5 / 100 + (q.pos.y + q.vSpeed * (1 / 60) - 50) / (800 - 50) * (15 / 100) ≤
        (19 : ℝ) / 100 := by
      linarith
    by_cases hb0 : q.baseSpeed = 0
    · rw [if_pos hb0]
      constructor <;> nlinarith
    · rw [if_neg hb0]
      constructor <;> nlinarith
  have hP2pos : P2.pos = P1.pos := by rw [hP2, orientationStep_pos]
  have hP2sp : P2.speed = P1.speed := by rw [hP2, orientationStep_speed]
  have hy3 : |P3.pos.y - P1.pos.y| ≤ 4 / 5 := by
    have h3y : P3.pos.y = P2.pos.y + -realTrig.sin P2.pitch * P2.speed := by
      rw [hP3, translateStep_pos_y]
    have hsin : |realTrig.sin P2.pitch| ≤ 1 := Real.abs_sin_le_one _
    rw [h3y, hP2pos, hP2sp]
    have habs : |(-realTrig.sin P2.pitch) * P1.speed| ≤ P1.speed := by
      rw [abs_mul, abs_neg, abs_of_nonneg hsp.1]
      exact mul_le_of_le_one_left hsp.1 hsin
    rw [add_sub_cancel_left]
    calc |(-realTrig.sin P2.pitch) * P1.speed| ≤ P1.speed := habs
      _ ≤ 4 / 5 := hsp.2
  have hy4 : P4.pos.y = P3.pos.y := by rw [hP4, windDriftStep_pos_y]
  have hto4 : P4.turbulenceOffset = q.turbulenceOffset := by
    rw [hP4, hP3, hP2, hP1]
    simp
  have hy5 : |P5.pos.y - P4.pos.y| ≤ 12 / 1000 := by
    rw [hP5]
    exact turbulenceStep_pos_y_bound rnd wind P4 (by rw [hto4]; exact hoff) hws1 hws2 hr1 hr2
  have hy6 : P6.pos.y = P5.pos.y := by
    have : P6.pos = P5.pos := by rw [hP6, wobbleStep_pos]
    rw [this]
  rcases respawnOrLightsStep_pos_y realTrig rnd cam timeOfDay P6 with hr | hr
  · unfold aglInBand
    rw [hr]
    simp only [computeSpawnAltitude, aglToY, yToAGL, GROUND_HEIGHT, SAFE_ZONE_MIN, SAFE_ZONE_MAX,
      MIN_HEIGHT_AGL, MAX_HEIGHT_AGL, FLOOR_AVOIDANCE_DIST, CEILING_AVOIDANCE_DIST]
    have hm1 : 0 ≤ rnd.respawn.rAlt * (800 - 150 - 50 - (50 + 150 + 50)) := by nlinarith
    have hm2 : rnd.respawn.rAlt * (800 - 150 - 50 - (50 + 150 + 50)) ≤ 350 := by nlinarith
    constructor <;> linarith
  · unfold aglInBand
    rw [hr]
    simp only [yToAGL, GROUND_HEIGHT, MIN_HEIGHT_AGL, MAX_HEIGHT_AGL, sub_zero]
    rw [abs_le] at hy3 hy5
    constructor <;> linarith [hy1b.1, hy1b.2, hy3.1, hy3.2, hy5.1, hy5.2]

set_option maxHeartbeats 1600000 in
/-- C3 (corrected): from any state with height above ground inside
[MIN_HEIGHT_AGL, MAX_HEIGHT_AGL] whose stored quantities lie in the ranges the
code itself generates (vertical speed within the performance envelope, the
profile within its spawn ranges, the turbulence offset within its redraw
range, wind strength in [0.5, 2], unit-interval draws), one tick keeps the
height above ground inside the band - whether the body completes or throws in
a deep danger zone, since the throw leaves the position unchanged.  For
arbitrary stored vertical speeds the claim fails (see the counterexample):
no hard clamp is applied in the nominal path. -/
theorem C3_band_preserved (fuel : ℕ) (rnd : TickRand ℝ) (cam : Vec3 ℝ)
    (timeOfDay time : ℝ) (wind : WindState ℝ) (p : Plane ℝ)
    (hband : aglInBand p)
    (hvs1 : -p.maxDescentRate ≤ p.vSpeed) (hvs2 : p.vSpeed ≤ p.maxClimbRate)
    (hmc1 : 0 < p.maxClimbRate) (hmc2 : p.maxClimbRate ≤ 16 / 10)
    (hmd1 : 0 < p.maxDescentRate) (hmd2 : p.maxDescentRate ≤ 9 / 10)
    (hbs1 : 0 ≤ p.baseSpeed) (hbs2 : p.baseSpeed ≤ 27 / 20)
    (hto : |p.turbulenceOffset.y| ≤ 24 / 100)
    (hws1 : 0 ≤ wind.strength) (hws2 : wind.strength ≤ 2)
    (hr1 : 0 ≤ rnd.rTurbY) (hr2 : rnd.rTurbY ≤ 1)
    (hra1 : 0 ≤ rnd.respawn.rAlt) (hra2 : rnd.respawn.rAlt ≤ 1) :
    tickPreservesBand (planeTick realTrig fuel rnd cam timeOfDay time wind p) := by
  have hband' : 50 ≤ p.pos.y ∧ p.pos.y ≤ 800 := by
    simpa [aglInBand, yToAGL, GROUND_HEIGHT, MIN_HEIGHT_AGL, MAX_HEIGHT_AGL] using hband
  simp only [planeTick]
  set p2 := navRegenStep realTrig rnd (navInitStep (waypointTimerStep realTrig rnd p)) with hp2
  have h2pos : p2.pos = p.pos := by rw [hp2]; simp
  have h2vs : p2.vSpeed = p.vSpeed := by rw [hp2]; simp
  have h2mc : p2.maxClimbRate = p.maxClimbRate := by rw [hp2]; simp
  have h2md : p2.maxDescentRate = p.maxDescentRate := by rw [hp2]; simp
  have h2bs : p2.baseSpeed = p.baseSpeed := by rw [hp2]; simp
  have h2to : p2.turbulenceOffset = p.turbulenceOffset := by rw [hp2]; simp
  rcases hblend : blendStep p2 with ⟨pe, err⟩ | q3
  · simp only [hblend, tickPreservesBand]
    have hpe := blendStep_error_pos hblend
    unfold aglInBand
    rw [hpe, h2pos]
    exact hband
  · have h3 := blendStep_ok_preserves hblend
    simp only [hblend]
    rcases lt_or_le p.pos.y 125 with hlow | h125
    · have hverr : verticalAndHeadingStep realTrig (yToAGL p.pos.y) (smoothClampStep q3) =
          .error (smoothClampStep q3, .referenceError) :=
        verticalAndHeadingStep_deep_floor _ _ _ (by
          simp only [yToAGL, GROUND_HEIGHT, MIN_HEIGHT_AGL, FLOOR_AVOIDANCE_DIST, sub_zero]
          linarith)
      simp only [hverr, tickPreservesBand]
      unfold aglInBand
      rw [smoothClampStep_pos, h3.1, h2pos]
      exact hband
    · rcases le_or_lt p.pos.y 725 with h725 | hhigh
      · obtain ⟨q5, hv, hq5pos, hq5bs, hq5to, hq5wt, d, hq5vs⟩ :=
          verticalAndHeadingStep_ok realTrig (yToAGL p.pos.y) (smoothClampStep q3)
            (by simp only [yToAGL, GROUND_HEIGHT, MIN_HEIGHT_AGL, FLOOR_AVOIDANCE_DIST,
                  sub_zero]
                linarith)
            (by simp only [yToAGL, GROUND_HEIGHT, MAX_HEIGHT_AGL, CEILING_AVOIDANCE_DIST,
                  sub_zero]
                linarith)
        simp only [hv, tickPreservesBand]
        have hcpos : (smoothClampStep q3).pos = p.pos := by
          rw [smoothClampStep_pos, h3.1, h2pos]
        have hcvs : (smoothClampStep q3).vSpeed = p.vSpeed := by
          rw [smoothClampStep_vSpeed, h3.2.1, h2vs]
        have hcmc : (smoothClampStep q3).maxClimbRate = p.maxClimbRate := by
          rw [smoothClampStep_maxClimbRate, h3.2.2.1, h2mc]
        have hcmd : (smoothClampStep q3).maxDescentRate = p.maxDescentRate := by
          rw [smoothClampStep_maxDescentRate, h3.2.2.2.1, h2md]
        have hcbs : (smoothClampStep q3).baseSpeed = p.baseSpeed := by
          rw [smoothClampStep_baseSpeed, h3.2.2.2.2.1, h2bs]
        have hcto : (smoothClampStep q3).turbulenceOffset = p.turbulenceOffset := by
          rw [smoothClampStep_turbulenceOffset, h3.2.2.2.2.2.1, h2to]
        have hvsq : -(9 / 10) ≤ q5.vSpeed ∧ q5.vSpeed ≤ 16 / 10 := by
          rw [hq5vs, hcmd, hcmc, if_neg (ne_of_gt hmd1), if_neg (ne_of_gt hmc1)]
          have hlc := lerp_clamp_mem (smoothClampStep q3).vSpeed d
            (-p.maxDescentRate) p.maxClimbRate
            (by rw [hcvs]; exact hvs1) (by rw [hcvs]; exact hvs2) (by linarith)
          exact ⟨by linarith [hlc.1], by linarith [hlc.2]⟩
        exact postVerticalChain_band fuel rnd cam timeOfDay time wind q5
          (by rw [hq5pos, hcpos]; linarith)
          (by rw [hq5pos, hcpos]; linarith)
          hvsq.1 hvsq.2
          (by rw [hq5bs, hcbs]; exact hbs1)
          (by rw [hq5bs, hcbs]; exact hbs2)
          (by rw [hq5to, hcto]; exact hto)
          hws1 hws2 hr1 hr2 hra1 hra2
      · have hverr : verticalAndHeadingStep realTrig (yToAGL p.pos.y) (smoothClampStep q3) =
            .error (smoothClampStep q3, .referenceError) :=
          verticalAndHeadingStep_deep_ceiling _ _ _
            (by simp only [yToAGL, GROUND_HEIGHT, MIN_HEIGHT_AGL, FLOOR_AVOIDANCE_DIST,
                  sub_zero]
                push_neg
                linarith)
            (by simp only [yToAGL, GROUND_HEIGHT, MAX_HEIGHT_AGL, CEILING_AVOIDANCE_DIST,
                  sub_zero]
                linarith)
        simp only [hverr, tickPreservesBand]
        unfold aglInBand
        rw [smoothClampStep_pos, h3.1, h2pos]
        exact hband

lemma integrateStep_pos_x (p : Plane α) : (integrateStep p).pos.x = p.pos.x := rfl

lemma integrateStep_pos_z (p : Plane α) : (integrateStep p).pos.z = p.pos.z := rfl

lemma integrateStep_turbulenceTimer (p : Plane α) :
    (integrateStep p).turbulenceTimer = p.turbulenceTimer := rfl

lemma orientationStep_turbulenceTimer (T : Trig α) (fuel : ℕ) (p : Plane α) :
    (orientationStep T fuel p).turbulenceTimer = p.turbulenceTimer := rfl

lemma translateStep_pos_x (T : Trig α) (p : Plane α) :
    (translateStep T p).pos.x = p.pos.x + T.sin p.heading * T.cos p.pitch * p.speed := rfl

lemma translateStep_pos_z (T : Trig α) (p : Plane α) :
    (translateStep T p).pos.z = p.pos.z + T.cos p.heading * T.cos p.pitch * p.speed := rfl

lemma translateStep_turbulenceTimer (T : Trig α) (p : Plane α) :
    (translateStep T p).turbulenceTimer = p.turbulenceTimer := rfl

lemma windDriftStep_pos_x (T : Trig α) (wind : WindState α) (p : Plane α) :
    (windDriftStep T wind p).pos.x =
      p.pos.x + T.cos wind.direction * wind.strength * dt * (3 / 10) := rfl

lemma windDriftStep_pos_z (T : Trig α) (wind : WindState α) (p : Plane α) :
    (windDriftStep T wind p).pos.z =
      p.pos.z + T.sin wind.direction * wind.strength * dt * (3 / 10) := rfl

lemma windDriftStep_turbulenceTimer (T : Trig α) (wind : WindState α) (p : Plane α) :
    (windDriftStep T wind p).turbulenceTimer = p.turbulenceTimer := rfl

set_option maxHeartbeats 1600000 in
/-- C3 counterexample: the dive plane starts inside the altitude band at
130 m AGL, and its floor distance 80 lies outside both deep danger zones, so
the tick body completes normally; but its stored vertical speed -10000 is
integrated without any hard clamp (only the lerped target is clamped), so the
plane ends the tick far below MIN_HEIGHT_AGL.  The band is therefore not an
unconditional per-tick invariant of the code. -/
theorem C3_counterexample :
    aglInBand (divePlane : Plane ℝ) ∧
    ¬ tickPreservesBand (planeTick realTrig 1 zeroTickRand ⟨0, 0, 0⟩ (1 / 4) 0 ⟨0, 1, 0⟩
        (divePlane : Plane ℝ)) := by
  constructor
  · norm_num [aglInBand, divePlane, basePlane, yToAGL, GROUND_HEIGHT, MIN_HEIGHT_AGL,
      MAX_HEIGHT_AGL]
  set Q : Plane ℝ :=
    { (divePlane : Plane ℝ) with
      waypointTimer := 1 / 60
      targetHeading := realTrig.atan2 0 9000
      vSpeed := -(199994 / 25) } with hQdef
  have s1 : waypointTimerStep realTrig zeroTickRand (divePlane : Plane ℝ) =
      { (divePlane : Plane ℝ) with waypointTimer := 1 / 60 } := by
    simp only [waypointTimerStep, divePlane, basePlane, dt]
    norm_num
  have s2 : navInitStep { (divePlane : Plane ℝ) with waypointTimer := 1 / 60 } =
      { (divePlane : Plane ℝ) with waypointTimer := 1 / 60 } := rfl
  have s3 : navRegenStep realTrig zeroTickRand
        { (divePlane : Plane ℝ) with waypointTimer := 1 / 60 } =
      { (divePlane : Plane ℝ) with waypointTimer := 1 / 60 } := by
    simp only [navRegenStep, divePlane, basePlane, Vec3.sub, Vec3.lenSq]
    norm_num
  have s4 : blendStep { (divePlane : Plane ℝ) with waypointTimer := 1 / 60 } =
      .ok { (divePlane : Plane ℝ) with waypointTimer := 1 / 60 } := by
    simp only [blendStep, divePlane, basePlane]
    norm_num
  have s5 : smoothClampStep { (divePlane : Plane ℝ) with waypointTimer := 1 / 60 } =
      { (divePlane : Plane ℝ) with waypointTimer := 1 / 60 } := by
    simp only [smoothClampStep, divePlane, basePlane, yToAGL, aglToY, GROUND_HEIGHT,
      SAFE_ZONE_MIN, SAFE_ZONE_MAX, MIN_HEIGHT_AGL, MAX_HEIGHT_AGL, FLOOR_AVOIDANCE_DIST,
      CEILING_AVOIDANCE_DIST]
    norm_num
  have s6 : verticalAndHeadingStep realTrig (yToAGL (divePlane : Plane ℝ).pos.y)
        { (divePlane : Plane ℝ) with waypointTimer := 1 / 60 } = .ok Q := by
    rw [hQdef]
    simp only [verticalAndHeadingStep, divePlane, basePlane, yToAGL, GROUND_HEIGHT,
      MIN_HEIGHT_AGL, MAX_HEIGHT_AGL, FLOOR_AVOIDANCE_DIST, CEILING_AVOIDANCE_DIST,
      clamp, lerp]
    norm_num
  have hQy : Q.pos.y = 130 := by rw [hQdef]; rfl
  have hQx : Q.pos.x = 0 := by rw [hQdef]; rfl
  have hQz : Q.pos.z = 0 := by rw [hQdef]; rfl
  have hQvs : Q.vSpeed = -(199994 / 25) := by rw [hQdef]
  have hQbs : Q.baseSpeed = 1 := by rw [hQdef]; rfl
  have hQto : Q.turbulenceOffset = ⟨0, 0, 0⟩ := by rw [hQdef]; rfl
  have hQtt : Q.turbulenceTimer = 0 := by rw [hQdef]; rfl
  set P1 := integrateStep Q with hP1
  set P2 := orientationStep realTrig 1 P1 with hP2
  set P3 := translateStep realTrig P2 with hP3
  set P4 := windDriftStep realTrig ⟨0, 1, 0⟩ P3 with hP4
  set P5 := turbulenceStep zeroTickRand ⟨0, 1, 0⟩ P4 with hP5
  set P6 := wobbleStep realTrig 0 ⟨0, 1, 0⟩ P5 with hP6
  have htick : planeTick realTrig 1 zeroTickRand ⟨0, 0, 0⟩ (1 / 4) 0 ⟨0, 1, 0⟩
        (divePlane : Plane ℝ) =
      .ok (respawnOrLightsStep realTrig zeroTickRand ⟨0, 0, 0⟩ (1 / 4) P6) := by
    rw [hP6, hP5, hP4, hP3, hP2, hP1]
    simp only [planeTick, s1, s2, s3, s4, s5, s6]
  have hP1y : P1.pos.y = -(2497 / 750) := by
    rw [hP1, integrateStep_pos_y, hQy, hQvs]
    norm_num [dt]
  have hP1x : P1.pos.x = 0 := by rw [hP1, integrateStep_pos_x, hQx]
  have hP1z : P1.pos.z = 0 := by rw [hP1, integrateStep_pos_z, hQz]
  have hsp : 0 ≤ P1.speed ∧ P1.speed ≤ 1 / 5 := by
    rw [hP1, integrateStep_speed, hQy, hQvs, hQbs]
    simp only [yToAGL, GROUND_HEIGHT, MIN_HEIGHT_AGL, MAX_HEIGHT_AGL,
      DEBUG_PLANE_SPEED_MULT, dt, sub_zero]
    norm_num
  have hP2pos : P2.pos = P1.pos := by rw [hP2, orientationStep_pos]
  have hP2sp : P2.speed = P1.speed := by rw [hP2, orientationStep_speed]
  have hy3 : |P3.pos.y - P1.pos.y| ≤ 1 / 5 := by
    have h3y : P3.pos.y = P2.pos.y + -realTrig.sin P2.pitch * P2.speed := by
      rw [hP3, translateStep_pos_y]
    have hsin : |realTrig.sin P2.pitch| ≤ 1 := Real.abs_sin_le_one _
    rw [h3y, hP2pos, hP2sp]
    have habs : |(-realTrig.sin P2.pitch) * P1.speed| ≤ P1.speed := by
      rw [abs_mul, abs_neg, abs_of_nonneg hsp.1]
      exact mul_le_of_le_one_left hsp.1 hsin
    rw [add_sub_cancel_left]
    calc |(-realTrig.sin P2.pitch) * P1.speed| ≤ P1.speed := habs
      _ ≤ 1 / 5 := hsp.2
  have hx3 : |P3.pos.x| ≤ 1 / 5 := by
    have h3x : P3.pos.x =
        P2.pos.x + realTrig.sin P2.heading * realTrig.cos P2.pitch * P2.speed := by
      rw [hP3, translateStep_pos_x]
    have h0 : |P1.speed| ≤ 1 / 5 := by
      rw [abs_of_nonneg hsp.1]; exact hsp.2
    have h1 : |realTrig.sin P2.heading * realTrig.cos P2.pitch| ≤ 1 := by
      rw [abs_mul]
      calc |realTrig.sin P2.heading| * |realTrig.cos P2.pitch| ≤ 1 * 1 :=
          mul_le_mul (Real.abs_sin_le_one _) (Real.abs_cos_le_one _) (abs_nonneg _) zero_le_one
        _ = 1 := by norm_num
    rw [h3x, hP2pos, hP2sp, hP1x, zero_add]
    calc |realTrig.sin P2.heading * realTrig.cos P2.pitch * P1.speed|
        = |realTrig.sin P2.heading * realTrig.cos P2.pitch| * |P1.speed| := abs_mul _ _
      _ ≤ 1 * (1 / 5) := mul_le_mul h1 h0 (abs_nonneg _) zero_le_one
      _ = 1 / 5 := by norm_num
  have hz3 : |P3.pos.z| ≤ 1 / 5 := by
    have h3z : P3.pos.z =
        P2.pos.z + realTrig.cos P2.heading * realTrig.cos P2.pitch * P2.speed := by
      rw [hP3, translateStep_pos_z]
    have h0 : |P1.speed| ≤ 1 / 5 := by
      rw [abs_of_nonneg hsp.1]; exact hsp.2
    have h1 : |realTrig.cos P2.heading * realTrig.cos P2.pitch| ≤ 1 := by
      rw [abs_mul]
      calc |realTrig.cos P2.heading| * |realTrig.cos P2.pitch| ≤ 1 * 1 :=
          mul_le_mul (Real.abs_cos_le_one _) (Real.abs_cos_le_one _) (abs_nonneg _) zero_le_one
        _ = 1 := by norm_num
    rw [h3z, hP2pos, hP2sp, hP1z, zero_add]
    calc |realTrig.cos P2.heading * realTrig.cos P2.pitch * P1.speed|
        = |realTrig.cos P2.heading * realTrig.cos P2.pitch| * |P1.speed| := abs_mul _ _
      _ ≤ 1 * (1 / 5) := mul_le_mul h1 h0 (abs_nonneg _) zero_le_one
      _ = 1 / 5 := by norm_num
  have hx4 : P4.pos.x = P3.pos.x + 1 / 200 := by
    rw [hP4, windDriftStep_pos_x]
    norm_num [realTrig, Real.cos_zero, dt]
  have hz4 : P4.pos.z = P3.pos.z := by
    rw [hP4, windDriftStep_pos_z]
    norm_num [realTrig, Real.sin_zero]
  have hy4 : P4.pos.y = P3.pos.y := by rw [hP4, windDriftStep_pos_y]
  have htt4 : P4.turbulenceTimer = 0 := by
    rw [hP4, hP3, hP2, hP1]
    rw [windDriftStep_turbulenceTimer, translateStep_turbulenceTimer,
      orientationStep_turbulenceTimer, integrateStep_turbulenceTimer, hQtt]
  have hto4 : P4.turbulenceOffset = ⟨0, 0, 0⟩ := by
    rw [hP4, hP3, hP2, hP1]
    rw [windDriftStep_turbulenceOffset, translateStep_turbulenceOffset,
      orientationStep_turbulenceOffset, integrateStep_turbulenceOffset, hQto]
  have hp54 : P5.pos = P4.pos := by
    rw [hP5]
    simp only [turbulenceStep, htt4, hto4, TURBULENCE_FREQUENCY, dt]
    norm_num [Vec3.add, Vec3.smul]
  have hp65 : P6.pos = P5.pos := by rw [hP6, wobbleStep_pos]
  have hp64 : P6.pos = P4.pos := hp65.trans hp54
  have hcond : ¬((DESPAWN_BOX_SIZE : ℝ) / 2 < |P6.pos.x - 0| ∨
      (DESPAWN_BOX_SIZE : ℝ) / 2 < |P6.pos.z - 0|) := by
    rw [not_or, not_lt, not_lt, sub_zero, sub_zero, hp64, hx4, hz4]
    rw [abs_le] at hx3 hz3
    constructor
    · rw [DESPAWN_BOX_SIZE]
      rw [abs_le]
      constructor <;> linarith [hx3.1, hx3.2]
    · rw [DESPAWN_BOX_SIZE]
      rw [abs_le]
      constructor <;> linarith [hz3.1, hz3.2]
  have hXpos : (respawnOrLightsStep realTrig zeroTickRand ⟨0, 0, 0⟩ (1 / 4) P6).pos =
      P6.pos := by
    simp only [respawnOrLightsStep]
    rw [if_neg hcond]
  rw [htick]
  simp only [tickPreservesBand]
  intro hIn
  obtain ⟨h1, h2⟩ := hIn
  rw [hXpos, hp64] at h1
  simp only [yToAGL, GROUND_HEIGHT, MIN_HEIGHT_AGL, sub_zero] at h1
  rw [hy4] at h1
  rw [abs_le] at hy3
  linarith [hy3.1, hy3.2, h1]

/-- C3 witness: the amended band-preservation theorem applied to the benign
cruise plane, whose stored state satisfies every envelope bound. -/
theorem C3_witness :
    tickPreservesBand (planeTick realTrig 1 zeroTickRand ⟨0, 0, 0⟩ (1 / 4) 0 ⟨0, 1, 0⟩
      (basePlane : Plane ℝ)) :=
  C3_band_preserved 1 zeroTickRand ⟨0, 0, 0⟩ (1 / 4) 0 ⟨0, 1, 0⟩ basePlane
    (by norm_num [aglInBand, basePlane, yToAGL, GROUND_HEIGHT, MIN_HEIGHT_AGL, MAX_HEIGHT_AGL])
    (by norm_num [basePlane]) (by norm_num [basePlane])
    (by norm_num [basePlane]) (by norm_num [basePlane])
    (by norm_num [basePlane]) (by norm_num [basePlane])
    (by norm_num [basePlane]) (by norm_num [basePlane])
    (by norm_num [basePlane])
    (by norm_num) (by norm_num)
    (by norm_num [zeroTickRand]) (by norm_num [zeroTickRand])
    (by norm_num [zeroTickRand, zeroRespawnRand]) (by norm_num [zeroTickRand, zeroRespawnRand])

end PlaneViewer
